import Mathlib

/-!
Shallow embedding of the YourCovidRisk stochastic transmission-risk engine
(`calculators/exposure_calculator.py`, `calculators/risk_distribution.py`,
`calculators/validators.py`) together with proofs settling the frozen claims.

Conventions of the embedding:
* Python floats are modelled as real numbers (`ℝ`) where the computation is
  transcendental, and as exact rationals (`ℚ`) where it is purely rational
  (validation, the adaptive trial-count policy, the histogram pipeline).
  IEEE special values (`inf`, `-inf`, `nan`), which `float(...)` can produce
  during validation, are modelled by the dedicated type `PyVal`; the engine
  marks configurations containing them with the `ExposureOutcome.nonreal`
  constructor, since arithmetic on them leaves the real-number embedding.
* Every call to the global NumPy random generator is modelled by one field of
  a draw record: normal draws carry the standard-normal value `z` (so
  `np.random.lognormal(m, s)` becomes `exp (m + s * z)`), uniform draws carry
  the unit draw `u ∈ [0,1)` (so `np.random.uniform(a, b)` becomes
  `a + (b - a) * u`), and the Weibull draw carries the raw sample `w ≥ 0`.
* Division by zero follows Lean's `x / 0 = 0` convention; theorems that would
  otherwise touch a Python `ZeroDivisionError` path carry hypotheses keeping
  denominators nonzero.
-/

/- ────────────────────────────────────────────────────────────────────────
   Validation layer: `calculators/validators.py`
   Model of Python `str.strip`, `float(...)`, `int(...)` on stripped text.
   ──────────────────────────────────────────────────────────────────────── -/

/-- The value of a Python `float`: a finite rational, one of the two
infinities, or `nan`.  `float("inf")`, `float("-inf")` and `float("nan")`
are all accepted by CPython's parser. -/
inductive PyVal where
  | num (q : ℚ)
  | inf
  | ninf
  | nan
deriving DecidableEq, Repr

/-- `true` exactly when the float value is finite (neither infinite nor NaN). -/
def PyVal.isFinite : PyVal → Bool
  | .num _ => true
  | _ => false

/-- The finite value of a `PyVal` (junk value `0` on the non-finite
constructors; only used under an `isFinite` guard). -/
def PyVal.toRat : PyVal → ℚ
  | .num q => q
  | _ => 0

/-- A dynamically typed Python argument as received by `safe_float` /
`safe_int`: `None`, a string, an actual number (e.g. the float `5.0`), or
any other object. -/
inductive PyArg where
  | pyNone
  | pyStr (s : String)
  | pyNum (q : ℚ)
  | pyOther
deriving DecidableEq, Repr

/-- Python whitespace characters stripped by `str.strip()` (ASCII subset). -/
def pySpace (c : Char) : Bool :=
  c = ' ' || c = '\t' || c = '\n' || c = '\r' || c = '\x0b' || c = '\x0c'

/-- `str.strip()` on a character list. -/
def pyStripChars (s : List Char) : List Char :=
  ((s.dropWhile pySpace).reverse.dropWhile pySpace).reverse

/-- `validators._strip`: strings are stripped, every non-string argument
(including `None` and actual numbers) becomes the empty text. -/
def pyStrip : PyArg → List Char
  | .pyStr s => pyStripChars s.data
  | _ => []

/-- Split an optional leading sign; returns (`isNegative`, rest). -/
def splitSign : List Char → Bool × List Char
  | '+' :: r => (false, r)
  | '-' :: r => (true, r)
  | r => (false, r)

/-- Numeric value of a digit list (most significant first). -/
def digitsVal (l : List Char) : ℕ :=
  l.foldl (fun a c => 10 * a + (c.toNat - 48)) 0

/-- All characters are ASCII digits. -/
def allDigits (l : List Char) : Bool :=
  l.all Char.isDigit

/-- Parse a nonempty, optionally signed digit string into an integer
(used for `float` exponents and for `int(...)`). -/
def parseSignedDigits (l : List Char) : Option ℤ :=
  let (neg, r) := splitSign l
  if r ≠ [] ∧ allDigits r then
    some (if neg then -(digitsVal r : ℤ) else (digitsVal r : ℤ))
  else none

/-- Parse the mantissa of a float literal: `digits`, `digits.`, `.digits`
or `digits.digits` (at least one digit overall). -/
def parseMantissa (l : List Char) : Option ℚ :=
  let ip := l.takeWhile (fun c => c != '.')
  let rest := l.dropWhile (fun c => c != '.')
  match rest with
  | [] => if ip ≠ [] ∧ allDigits ip then some (digitsVal ip : ℚ) else none
  | _ :: fp =>
    if allDigits ip ∧ allDigits fp ∧ (ip ≠ [] ∨ fp ≠ []) then
      some ((digitsVal ip : ℚ) + (digitsVal fp : ℚ) / 10 ^ fp.length)
    else none

/-- Model of CPython `float(text)` on stripped, nonempty text: an optional
sign followed by `inf`/`infinity`/`nan` (case-insensitive) or a decimal
literal with optional fraction and exponent.  (PEP 515 underscore grouping
and non-ASCII digits are not modelled; no claim involves them.) -/
def pyFloatOfChars (l : List Char) : Option PyVal :=
  let (neg, rest) := splitSign l
  let low := rest.map Char.toLower
  if low = "inf".data ∨ low = "infinity".data then
    some (if neg then .ninf else .inf)
  else if low = "nan".data then some .nan
  else
    let mant := low.takeWhile (fun c => c != 'e')
    let expPart := low.dropWhile (fun c => c != 'e')
    match expPart with
    | [] => (parseMantissa mant).map fun q => .num (if neg then -q else q)
    | _ :: expRest =>
      match parseSignedDigits expRest with
      | none => none
      | some e =>
        (parseMantissa mant).map fun q => .num ((if neg then -q else q) * 10 ^ e)

/-- Model of CPython `int(text)` on stripped text: optional sign and digits
only (no decimal point, no exponent). -/
def pyIntOfChars (l : List Char) : Option ℤ :=
  parseSignedDigits l

/-- `validators.safe_float`: never throws; returns `(value, error_msg)` with
an empty message on success and the default plus a message otherwise. -/
def safe_float (value : PyArg) (default : ℚ) : PyVal × String :=
  let txt := pyStrip value
  if txt = [] then (.num default, "")
  else
    match pyFloatOfChars txt with
    | some v => (v, "")
    | none => (.num default, String.mk ("Invalid float: ".data ++ txt))

/-- `validators.safe_int`: never throws; returns `(value, error_msg)`. -/
def safe_int (value : PyArg) (default : ℤ) : ℤ × String :=
  let txt := pyStrip value
  if txt = [] then (default, "")
  else
    match pyIntOfChars txt with
    | some v => (v, "")
    | none => (default, String.mk ("Invalid int: ".data ++ txt))

/- ────────────────────────────────────────────────────────────────────────
   Risk summarization: `calculators/risk_distribution.py`
   NumPy percentile/mean/arange/histogram are modelled over `ℝ`.
   ──────────────────────────────────────────────────────────────────────── -/

noncomputable section

/-- Ascending sort, as performed by `np.percentile` before interpolating. -/
def npSort (l : List ℝ) : List ℝ :=
  List.insertionSort (· ≤ ·) l

/-- `np.percentile(l, q)` with the default linear interpolation:
with `h = (n-1)·q/100`, the result is `a[⌊h⌋] + (a[⌈h⌉] - a[⌊h⌋])·(h - ⌊h⌋)`
on the ascending sort `a` of `l`. -/
def npPercentile (l : List ℝ) (q : ℝ) : ℝ :=
  let s := npSort l
  let h := ((l.length : ℝ) - 1) * q / 100
  let lo := s.getD (⌊h⌋).toNat 0
  let hi := s.getD (⌈h⌉).toNat 0
  lo + (hi - lo) * (h - ⌊h⌋)

/-- `np.mean`. -/
def npMean (l : List ℝ) : ℝ :=
  l.sum / l.length

/-- `np.arange(start, stop, step)`: `⌈(stop - start)/step⌉` points
`start + i·step` (exact arithmetic; no claim depends on float drift). -/
def npArange (start stop step : ℝ) : List ℝ :=
  (List.range (⌈(stop - start) / step⌉).toNat).map fun i => start + i * step

/-- Python's built-in `round` (banker's rounding, half to even). -/
def pythonRound (x : ℝ) : ℤ :=
  if x - ⌊x⌋ < 1 / 2 then ⌊x⌋
  else if 1 / 2 < x - ⌊x⌋ then ⌊x⌋ + 1
  else if ⌊x⌋ % 2 = 0 then ⌊x⌋ else ⌊x⌋ + 1

/-- `risk_distribution.calculate_optimal_axes`: smart axis bounds
`(x_min, x_max, tick_interval)` trimming the extreme tails. -/
def calculate_optimal_axes (risk_array : List ℝ) : ℝ × ℝ × ℝ :=
  let p95 := npPercentile risk_array 95
  let p5 := npPercentile risk_array 5
  let x_max := p95 * 1.2
  let x_min := max 0 (p5 * 0.8)
  let tick_interval := if x_max < 0.01 then 0.001 else if x_max < 0.1 then 0.01 else 0.05
  (x_min, x_max, tick_interval)

/-- `risk_distribution.create_smart_bins`: bin width `(x_max - x_min)/20`
rounded to a readable increment, then `np.arange(x_min, x_max + w, w)`.
A zero rounded width makes `np.arange` raise `ZeroDivisionError`, modelled
as the error branch.  (The `risk_array` parameter is unused, as in the
source.) -/
def create_smart_bins (risk_array : List ℝ) (x_min x_max : ℝ) : Except String (List ℝ) :=
  let bin_width := (x_max - x_min) / 20
  let w := if bin_width < 0.001 then (pythonRound (bin_width * 10000) : ℝ) / 10000
    else if bin_width < 0.01 then (pythonRound (bin_width * 1000) : ℝ) / 1000
    else (pythonRound (bin_width * 100) : ℝ) / 100
  if w = 0 then .error "np.arange: zero step (ZeroDivisionError)"
  else .ok (npArange x_min (x_max + w) w)

/-- Bin counts of `np.histogram` for explicit edges: half-open bins
`[e_i, e_(i+1))` except the last, which is closed. -/
def npHistogramCounts (data : List ℝ) : List ℝ → List ℕ
  | [] => []
  | [_] => []
  | [a, b] => [data.countP fun v => decide (a ≤ v) && decide (v ≤ b)]
  | a :: b :: c :: rest =>
    (data.countP fun v => decide (a ≤ v) && decide (v < b)) :: npHistogramCounts data (b :: c :: rest)

/-- Monotonicity check of `np.histogram` on explicit edges. -/
def chainLeBool : List ℝ → Bool
  | [] => true
  | [_] => true
  | a :: b :: rest => decide (a ≤ b) && chainLeBool (b :: rest)

/-- `np.histogram(data, bins)` with explicit edges: raises on fewer than two
edges or on non-monotone edges, else returns `(counts, edges)`. -/
def np_histogram (data bins : List ℝ) : Except String (List ℕ × List ℝ) :=
  if bins.length < 2 then .error "np.histogram: too few bins"
  else if chainLeBool bins = false then .error "np.histogram: bins must increase monotonically"
  else .ok (npHistogramCounts data bins, bins)

/-- Histogram part of the distribution payload. -/
structure RiskHistogram where
  counts : List ℕ
  edges : List ℝ
  total_simulations : ℕ
  max_count : ℕ

/-- Statistics part of the distribution payload.  The `std`/`skewness`
fields and the duplicate `range_51_ci`/`range_90_ci` tuples of the source
are omitted: they require a floating square root (outside the field
operations of the embedding) and no claim references them. -/
structure RiskStatistics where
  mean : ℝ
  median : ℝ
  p5 : ℝ
  p25 : ℝ
  p75 : ℝ
  p95 : ℝ
  pct_above_mean : ℝ
  pct_above_p95 : ℝ

/-- Axis configuration part of the distribution payload. -/
structure RiskAxisConfig where
  x_min : ℝ
  x_max : ℝ
  tick_interval : ℝ

/-- The payload built by `generate_risk_distribution_data` (interpretation
strings and static metadata omitted: pure text formatting, no claim). -/
structure RiskDistData where
  histogram : RiskHistogram
  statistics : RiskStatistics
  axis_config : RiskAxisConfig

/-- `risk_distribution.calculate_risk_statistics` (`np.median` agrees with
the 50th percentile under linear interpolation). -/
def calculate_risk_statistics (risk_array : List ℝ) : RiskStatistics :=
  let mean_risk := npMean risk_array
  let p95 := npPercentile risk_array 95
  { mean := mean_risk
    median := npPercentile risk_array 50
    p5 := npPercentile risk_array 5
    p25 := npPercentile risk_array 25
    p75 := npPercentile risk_array 75
    p95 := p95
    pct_above_mean := (risk_array.countP fun v => decide (mean_risk < v) : ℝ) / risk_array.length * 100
    pct_above_p95 := (risk_array.countP fun v => decide (p95 < v) : ℝ) / risk_array.length * 100 }

/-- `risk_distribution.generate_risk_distribution_data`: validates the risk
array, builds axes, bins, histogram and statistics; any raised exception is
modelled as the `.error` branch. -/
def generate_risk_distribution_data (all_risks_array : List ℝ) : Except String RiskDistData :=
  if all_risks_array.length = 0 then .error "Risk array is empty"
  else if all_risks_array.any (fun v => decide (v < 0) || decide (1 < v)) then
    .error "Risk values must be between 0 and 1"
  else
    let axes := calculate_optimal_axes all_risks_array
    match create_smart_bins all_risks_array axes.1 axes.2.1 with
    | .error e => .error e
    | .ok bins =>
      match np_histogram all_risks_array bins with
      | .error e => .error e
      | .ok counts_edges =>
        .ok { histogram := { counts := counts_edges.1
                             edges := counts_edges.2
                             total_simulations := all_risks_array.length
                             max_count := counts_edges.1.foldr Nat.max 0 }
              statistics := calculate_risk_statistics all_risks_array
              axis_config := { x_min := axes.1, x_max := axes.2.1, tick_interval := axes.2.2 } }

end

/- ────────────────────────────────────────────────────────────────────────
   Transmission physics: `calculators/exposure_calculator.py`
   ──────────────────────────────────────────────────────────────────────── -/

noncomputable section

/-- `1.0 / math.log(2)`. -/
def oneoverln2 : ℝ := 1.0 / Real.log 2

/-- Normalization constant for the legacy D⁻³ shape over [0.5, 100]
(computed at module load; unused by the Monte Carlo path). -/
def SHAPE_NORM : ℝ := ((0.5:ℝ) ^ (-2 : ℤ) - (100.0:ℝ) ^ (-2 : ℤ)) / 2.0

/-- Mouth opening diameter [m]. -/
def D_mouth : ℝ := 0.02

/-- Radial penetration coefficient (jet-like stage). -/
def beta_r_j : ℝ := 0.18

/-- Radial penetration coefficient (puff-like stage). -/
def beta_r_p : ℝ := 0.20

/-- Streamwise penetration coefficient (jet-like). -/
def beta_x_j : ℝ := 2.4

/-- Streamwise penetration coefficient (puff-like). -/
def beta_x_p : ℝ := 2.2

/-- Short-range particle-diameter cutoff [µm]. -/
def Dmax_SR : ℝ := 100.0

/-- Long-range particle-diameter cutoff [µm]. -/
def Dmax_LR : ℝ := 20.0

/-- `np.log10`. -/
def npLog10 (x : ℝ) : ℝ := Real.logb 10 x

/-- Particle-size grid [µm]: `np.logspace(np.log10(0.1), np.log10(30.0), 50)`,
i.e. `Ds i = 10 ^ (log10 0.1 + i · (log10 30 - log10 0.1) / 49)`. -/
def Ds (i : ℕ) : ℝ :=
  (10 : ℝ) ^ (npLog10 0.1 + (i : ℝ) * ((npLog10 30.0 - npLog10 0.1) / 49))

/-- Bin widths [µm] for integration over the size spectrum: central
differences inside, one-sided differences at the two ends. -/
def dDs (i : ℕ) : ℝ :=
  if i = 0 then Ds 1 - Ds 0
  else if i = 49 then Ds 49 - Ds 48
  else (Ds (i + 1) - Ds (i - 1)) / 2

/-- The three BLO emission modes (bronchiolar / laryngeal / oral). -/
inductive BLOMode where
  | B
  | L
  | O
deriving DecidableEq

/-- BLO `cn` parameters [cm⁻³]. -/
def blo_cn : BLOMode → ℝ
  | .B => 0.06
  | .L => 0.2
  | .O => 0.0010008

/-- BLO `mu` parameters [ln µm]. -/
def blo_mu : BLOMode → ℝ
  | .B => 0.989541
  | .L => 1.38629
  | .O => 4.97673

/-- BLO `sigma` parameters [ln µm]. -/
def blo_sigma : BLOMode → ℝ
  | .B => 0.262364
  | .L => 0.506818
  | .O => 0.585005

/-- Vocalization amplification factors `famp` by activity code. -/
def blo_famp (activity_choice : String) : BLOMode → ℝ :=
  if activity_choice = "1" then fun m => match m with | .B => 1.0 | .L => 0.0 | .O => 0.0
  else if activity_choice = "2" ∨ activity_choice = "3" then fun _ => 1.0
  else fun m => match m with | .B => 1.0 | .L => 5.0 | .O => 5.0

/-- `emission_spectrum_henriques(D, activity_choice)`: tri-modal lognormal
BLO mixture in count density, converted through spherical particle volume
to volumetric emission [mL m⁻³ µm⁻¹]; only modes with `famp > 0` contribute. -/
def emission_spectrum_henriques (D : ℝ) (activity_choice : String) : ℝ :=
  let famp := blo_famp activity_choice
  ([BLOMode.B, BLOMode.L, BLOMode.O].map fun mode =>
    if 0 < famp mode then
      let Np_term := famp mode * blo_cn mode / (Real.sqrt (2 * Real.pi) * blo_sigma mode) / D *
        Real.exp (-((Real.log D - blo_mu mode) ^ 2) / (2 * blo_sigma mode ^ 2))
      let Vp := (4.0 / 3.0) * Real.pi * (D / 2.0) ^ 3
      Np_term * Vp * 1e-6
    else 0).sum

/-- `get_henriques_breathing_rate`: Henriques Table 1 breathing rates
[m³/h] with default `standing = 0.57`. -/
def get_henriques_breathing_rate (physical_activity : String) : ℝ :=
  if physical_activity = "sitting" then 0.51
  else if physical_activity = "standing" then 0.57
  else if physical_activity = "light" then 1.24
  else if physical_activity = "moderate" then 1.77
  else if physical_activity = "heavy" then 3.28
  else if physical_activity = "seated" then 0.51
  else if physical_activity = "light_exercise" then 1.24
  else if physical_activity = "moderate_exercise" then 1.77
  else if physical_activity = "high_intensity" then 3.28
  else 0.57

/-- The lognormal σ used when sampling a breathing rate, per the repeated
if-chain in the Monte Carlo loop (sitting/seated/standing → 0.053,
light → 0.12, moderate → 0.34, heavy/high-intensity → 0.72). -/
def breathing_rate_sigma (physical_activity : String) : ℝ :=
  if physical_activity = "sitting" ∨ physical_activity = "seated" then 0.053
  else if physical_activity = "standing" then 0.053
  else if physical_activity = "light" ∨ physical_activity = "light_exercise" then 0.12
  else if physical_activity = "moderate" ∨ physical_activity = "moderate_exercise" then 0.34
  else 0.72

/-- `get_henriques_vocalization_activity`: vocal activity → emission
spectrum activity code, default `"2"` (speaking). -/
def get_henriques_vocalization_activity (vocal_activity : String) : String :=
  if vocal_activity = "breathing" then "1"
  else if vocal_activity = "just_breathing" then "1"
  else if vocal_activity = "speaking" then "2"
  else if vocal_activity = "loudly_speaking" then "5"
  else if vocal_activity = "loud_speaking" then "5"
  else if vocal_activity = "shouting" then "5"
  else "2"

/-- Output record of `calculate_henriques_jet_parameters`. -/
structure JetParams where
  x_transition : ℝ
  x0_j : ℝ
  x0_p : ℝ
  t_star : ℝ
  Q_exh : ℝ
  u0 : ℝ
  t0_j : ℝ
  t0_p : ℝ

/-- `calculate_henriques_jet_parameters(BR)` (default mouth diameter
inlined): dynamic jet parameters per Henriques supplement Eq. S.3-S.8. -/
def calculate_henriques_jet_parameters (BR : ℝ) : JetParams :=
  let T : ℝ := 4.0
  let phi_j : ℝ := 2.0
  let BR_s := BR / 3600.0
  let Q_exh := phi_j * BR_s
  let V_p := T * BR_s
  let A_mouth := Real.pi * (D_mouth / 2.0) ^ 2
  let u0 := Q_exh / A_mouth
  let t_star := T / 2.0
  let t0_j := Real.sqrt Real.pi * D_mouth ^ 3 / (8 * beta_r_j ^ 2 * beta_x_j ^ 2 * Q_exh)
  let t0_p := beta_r_j ^ 4 * beta_x_j ^ 4 / (beta_r_p ^ 4 * beta_x_p ^ 4) * (Q_exh / V_p) *
    (t_star + t0_j) ^ 2 - t_star
  let x0_j := D_mouth / (2 * beta_r_j)
  let x_transition := beta_x_j * (Q_exh * u0) ^ (0.25 : ℝ) * (t_star + t0_j) ^ (0.5 : ℝ) - x0_j
  let x0_p := beta_r_j / beta_r_p * (x_transition + x0_j) - x_transition
  { x_transition := x_transition, x0_j := x0_j, x0_p := x0_p, t_star := t_star,
    Q_exh := Q_exh, u0 := u0, t0_j := t0_j, t0_p := t0_p }

/-- `emission_spectrum_IRP_henriques(D, vocal_activity, viral_load, f_inf)`:
emission spectrum in IRP units (Eq. S.18), no calibration factor. -/
def emission_spectrum_IRP_henriques (D : ℝ) (vocal_activity : String)
    (viral_load f_inf : ℝ) : ℝ :=
  emission_spectrum_henriques D (get_henriques_vocalization_activity vocal_activity) *
    viral_load * f_inf

/-- `deposition_fraction(D, evaporation_factor)`: fraction of inhaled
particles of diameter `D` that deposit (Hinds 1999 / CAiMIRA). -/
def deposition_fraction (D evaporation_factor : ℝ) : ℝ :=
  let d := D * evaporation_factor
  let IFrac := 1 - 0.5 * (1 - 1 / (1 + 0.00076 * d ^ (2.8 : ℝ)))
  IFrac * (0.0587 + 0.911 / (1 + Real.exp (4.77 + 1.485 * Real.log d)) +
    0.943 / (1 + Real.exp (0.508 - 2.58 * Real.log d)))

/-- `sedimentation_rate(D, evaporation_factor)`: gravitational settling
removal rate [h⁻¹]. -/
def sedimentation_rate (D evaporation_factor : ℝ) : ℝ :=
  let vg := 1.88e-4 * (D * evaporation_factor / 2.5) ^ 2
  let h := 1.5
  vg * 3600 / h

/-- `viral_inactivation_rate_long(D, T, RH)`: biological decay rate [h⁻¹],
empirical half-life capped into `(0, 6.43]` hours (the `D` parameter is
unused, as in the source). -/
def viral_inactivation_rate_long (D T RH : ℝ) : ℝ :=
  let Tc := T - 273.15
  let t_norm := (Tc - 20.615) / 10.585
  let h_norm := (RH * 100 - 45.235) / 28.665
  let hl := Real.log 2 / (0.16030 + 0.04018 * t_norm + 0.02176 * h_norm - 0.14369 - 0.02636 * t_norm)
  let hl2 := if hl ≤ 0 then 6.43 else min 6.43 hl
  Real.log 2 / hl2

/-- `short_range_viability_decay(x, u0, RH)`: short-range viability decay
factor; linear decay in time-of-flight below the 40% RH threshold, clamped
at 0; no decay above the threshold. -/
def short_range_viability_decay (x u0 RH : ℝ) : ℝ :=
  if RH ≤ 0.40 then max 0.0 (1.0 - 0.016 * (x / u0))
  else 1.0

/-- `np.clip(v, lo, hi)`. -/
def npClip (v lo hi : ℝ) : ℝ := min (max v lo) hi

/-- `get_immune_emission_multiplier`: quanta emission multiplier by
immunocompromised status, default 1. -/
def get_immune_emission_multiplier (immunocompromised_status : String) : ℝ :=
  if immunocompromised_status = "normal" then 1.0
  else if immunocompromised_status = "moderate" then 8.0
  else if immunocompromised_status = "severe" then 20.0
  else 1.0

/-- `sample_omicron_transmissibility_bayesian()`: lognormal posterior from
Du et al. (2022), clipped to [1.5, 8.0].  `z` is the standard-normal draw
behind `np.random.normal(loc, scale)`. -/
def sample_omicron_transmissibility_bayesian (z : ℝ) : ℝ :=
  let log_mean := Real.log 4.20
  let log_se := (Real.log 6.35 - Real.log 2.05) / (2 * 1.96)
  npClip (Real.exp (log_mean + log_se * z)) 1.5 8.0

/-- `np.random.lognormal(mean, sigma)` expressed through its standard-normal
draw `z`. -/
def lognormal_sample (mean sigma z : ℝ) : ℝ := Real.exp (mean + sigma * z)

/-- `np.random.uniform(lo, hi)` expressed through its unit draw `u`. -/
def uniform_sample (lo hi u : ℝ) : ℝ := lo + (hi - lo) * u

/-- Jet-like dilution factor `S(x) = 2·βr,j·(x + x0,j)/Dm` (Henriques
Eq. 2.1, jet-like stage, inlined in the Monte Carlo loop). -/
def Sx_jet (x x0_j : ℝ) : ℝ :=
  2 * beta_r_j * (x + x0_j) / D_mouth

/-- Puff-like dilution factor
`S(x) = S(x*)·(1 + βr,p·(x - x*)/(βr,j·(x* + x0,j)))³` anchored at the
transition distance `x*` (inlined in the Monte Carlo loop). -/
def Sx_puff (x x_transition x0_j : ℝ) : ℝ :=
  Sx_jet x_transition x0_j *
    (1 + beta_r_p * (x - x_transition) / (beta_r_j * (x_transition + x0_j))) ^ 3

end

/- ────────────────────────────────────────────────────────────────────────
   The Monte Carlo engine: `calculate_unified_transmission_exposure`
   ──────────────────────────────────────────────────────────────────────── -/

/-- Random draws consumed for one other occupant inside one trial, in the
order the source draws them: infection Bernoulli, viral-load Weibull,
infectiousness uniform, breathing-rate lognormal, mask Bernoulli. -/
structure PersonDraw where
  u_infected : ℝ
  w_viral : ℝ
  u_f_inf : ℝ
  z_BR : ℝ
  u_mask : ℝ

/-- Random draws consumed by one Monte Carlo trial. -/
structure TrialDraw where
  z_omicron : ℝ
  u_ID50 : ℝ
  z_userBR : ℝ
  z_PF : ℝ
  person : ℕ → PersonDraw

/-- Support of the random draws: uniform unit draws lie in `[0, 1)` and the
Weibull draw is nonnegative (normal draws range over all of `ℝ`). -/
def PersonDraw.InSupport (p : PersonDraw) : Prop :=
  0 ≤ p.u_infected ∧ p.u_infected < 1 ∧ 0 ≤ p.w_viral ∧
    0 ≤ p.u_f_inf ∧ p.u_f_inf < 1 ∧ 0 ≤ p.u_mask ∧ p.u_mask < 1

/-- Support of one trial's draws. -/
def TrialDraw.InSupport (d : TrialDraw) : Prop :=
  0 ≤ d.u_ID50 ∧ d.u_ID50 < 1 ∧ ∀ j, (d.person j).InSupport

/-- The validated numeric configuration exactly as produced by the
`safe_float`/`safe_int` block of `calculate_unified_transmission_exposure`
(raw parsed values, before the `Q0 *= f_e*omicron` / `p *= f_i` updates;
`covid_prevalence_val` is already divided by 100 as in the source). -/
structure Config where
  C0_val : ℚ
  Q0_val : ℚ
  p_val : ℚ
  ACH_val : ℚ
  room_volume_val : ℚ
  delta_t_val : ℚ
  x_val : ℚ
  gamma_val : ℚ
  f_e_val : ℚ
  f_i_val : ℚ
  omicron_val : ℚ
  covid_prevalence_val : ℚ
  immune_val : ℚ
  N_val : ℤ
  percentage_masked_val : ℚ
  activity_choice : String
  user_physical_activity : String
  others_physical_activity : String
  others_vocal_activity : String
  RH : ℝ
  CO2 : ℝ
  inside_temp : ℝ
  immunocompromised_status : String

/-- One iteration of the inner particle-size loop (`for idx, Dv in
enumerate(Ds)`): concentration from this occupant at this diameter bin,
converted to a bin-width-weighted dose increment.  The Monte Carlo loop
always has `include_SR = True`, so the short-range branch is guarded only
by the `Dmax_SR` cutoff. -/
noncomputable def binDose (cfg : Config)
    (omicron_val_sim exhalation_filter others_BR Sx_sim lambda_SR vlin f_inf BR eta_in dt_h : ℝ)
    (idx : ℕ) : ℝ :=
  let Dv := Ds idx
  let width := dDs idx
  let C0_SR := emission_spectrum_IRP_henriques Dv cfg.others_vocal_activity vlin f_inf
  let C0_SR_omicron := C0_SR * omicron_val_sim
  let C0_SR_immune_adjusted := C0_SR_omicron *
    get_immune_emission_multiplier cfg.immunocompromised_status
  let C0_SR_filtered := C0_SR_immune_adjusted * exhalation_filter
  let CLR := if Dv ≤ Dmax_LR then
      C0_SR_filtered * others_BR /
        (((cfg.ACH_val : ℝ) + sedimentation_rate Dv 0.3 +
          viral_inactivation_rate_long Dv cfg.inside_temp cfg.RH) * (cfg.room_volume_val : ℝ))
    else 0.0
  let CSR := if Dv ≤ Dmax_SR then CLR + 1 / Sx_sim * lambda_SR * (C0_SR_filtered - CLR)
    else CLR
  let dose_increment := CSR * BR * dt_h * deposition_fraction Dv 0.3 * (1 - eta_in)
  dose_increment * width

/-- Dose contribution of one other occupant in one trial (Step 1-5 of the
per-person block in the Monte Carlo loop): zero unless the occupant's
Bernoulli draw makes them infectious, else the bin-width-weighted sum over
the particle grid of the short-range concentration times inhalation
factors. -/
noncomputable def personDose (cfg : Config) (omicron_val_sim BR eta_in dt_h : ℝ)
    (p : PersonDraw) : ℝ :=
  if p.u_infected < (cfg.covid_prevalence_val : ℝ) then
    let vlin_log10 := npClip (p.w_viral * 6.850) 2.0 10.0
    let vlin := (10 : ℝ) ^ vlin_log10
    let f_inf := uniform_sample 0.01 0.60 p.u_f_inf
    let others_BR := lognormal_sample
      (Real.log (get_henriques_breathing_rate cfg.others_physical_activity))
      (breathing_rate_sigma cfg.others_physical_activity) p.z_BR
    let exhalation_filter := if p.u_mask < (cfg.percentage_masked_val : ℝ) then (cfg.f_e_val : ℝ) else 1.0
    let jp := calculate_henriques_jet_parameters others_BR
    let Sx_sim := if (cfg.x_val : ℝ) < jp.x_transition then Sx_jet (cfg.x_val : ℝ) jp.x0_j
      else Sx_puff (cfg.x_val : ℝ) jp.x_transition jp.x0_j
    let lambda_SR := short_range_viability_decay (cfg.x_val : ℝ) jp.u0 cfg.RH
    ∑ idx ∈ Finset.range 50,
      binDose cfg omicron_val_sim exhalation_filter others_BR Sx_sim lambda_SR vlin f_inf
        BR eta_in dt_h idx
  else 0.0

/-- One Monte Carlo trial of the protection-factor method: samples the
population-level transmissibility, the user's dose-response threshold and
breathing rate, accumulates the per-occupant doses, and applies the
exponential dose-response law with the lognormal protection factor capped
at `PF_MAX = 50` (`PF = PF_MAX` directly for `immune ≤ 0`). -/
noncomputable def trialRisk (cfg : Config) (d : TrialDraw) : ℝ :=
  let omicron_val_sim := sample_omicron_transmissibility_bayesian d.z_omicron
  let ID50 := uniform_sample 10 100 d.u_ID50
  let user_BR_base := get_henriques_breathing_rate cfg.user_physical_activity
  let BR := lognormal_sample (Real.log user_BR_base)
    (breathing_rate_sigma cfg.user_physical_activity) d.z_userBR
  let eta_in := 1.0 - (cfg.f_i_val : ℝ)
  let dt_h := (cfg.delta_t_val : ℝ) / 3600.0
  let total_dose := ∑ j ∈ Finset.range cfg.N_val.toNat,
    personDose cfg omicron_val_sim BR eta_in dt_h (d.person j)
  let ID63 := oneoverln2 * ID50
  let PF_MAX : ℝ := 50.0
  let PF := if (cfg.immune_val : ℝ) ≤ 0 then PF_MAX
    else
      let pf := lognormal_sample (Real.log (1.0 / (cfg.immune_val : ℝ))) 0.2 d.z_PF
      if PF_MAX < pf then PF_MAX else pf
  let ID63_pf := ID63 * PF
  1.0 - Real.exp (-(total_dose / ID63_pf))

/-- Adaptive simulation count from the expected number of infectious
occupants. -/
def adaptive_n_sims (expected_infectious : ℚ) : ℕ :=
  if expected_infectious < 0.5 then 25000
  else if expected_infectious < 2.0 then 8000
  else if expected_infectious < 5.0 then 2000
  else if expected_infectious < 10.0 then 1000
  else 300

/-- The trial-risk array `all_risks_pf` of one engine invocation: one risk
value per trial, for the adaptively chosen number of trials. -/
noncomputable def engineRisks (cfg : Config) (draws : ℕ → TrialDraw) : List ℝ :=
  (List.range (adaptive_n_sims ((cfg.N_val : ℚ) * cfg.covid_prevalence_val))).map
    fun i => trialRisk cfg (draws i)

/-- Echo of the converted input values (`result["inputs"]`); `Q0` and `p`
carry the multiplied values per the source. -/
structure InputsEcho where
  C0 : ℚ
  Q0 : ℚ
  p : ℚ
  delta_t : ℚ
  x : ℚ
  gamma : ℚ
  activity_choice : String
  f_e : ℚ
  f_i : ℚ
  omicron : ℚ
  covid_prevalence : ℚ
  immune : ℚ
  N : ℤ
  percentage_masked : ℚ

/-- The result dictionary of a successful engine run (back-compat alias
keys included). -/
structure ExposureResult where
  risk : ℝ
  q_e : ℚ
  ACH : ℚ
  room_volume : ℚ
  activity_label : String
  inputs : InputsEcho
  N_masked : ℤ
  N_unmasked : ℤ
  mc_mean_pf : ℝ
  mc_pf_ci_5 : ℝ
  mc_pf_ci_95 : ℝ
  mc_pf_ci_25 : ℝ
  mc_pf_ci_75 : ℝ
  mc_pf_ci_0_5 : ℝ
  mc_pf_ci_99_5 : ℝ
  mc_pf_median : ℝ
  mc_mean : ℝ
  mc_median : ℝ
  mc_ci_5 : ℝ
  mc_ci_95 : ℝ
  mc_ci_25 : ℝ
  mc_ci_75 : ℝ
  mc_ci_0_5 : ℝ
  mc_ci_99_5 : ℝ
  risk_distribution_data : Option RiskDistData

/-- `if activity_choice not in activity_map: activity_choice = "2"`. -/
def normalized_activity_choice (activity_choice : String) : String :=
  if activity_choice = "1" ∨ activity_choice = "2" ∨ activity_choice = "3" ∨
      activity_choice = "4" ∨ activity_choice = "5" then activity_choice
  else "2"

/-- Display label for the legacy `activity_choice` parameter (applied after
normalization, so the lookup always hits). -/
def activity_label_of (activity_choice : String) : String :=
  if activity_choice = "1" then "Sedentary/Passive"
  else if activity_choice = "3" then "Light"
  else if activity_choice = "4" then "Moderate"
  else if activity_choice = "5" then "Intense"
  else "Standard"

/-- The post-validation body of `calculate_unified_transmission_exposure`:
ventilation bookkeeping, masked/unmasked split, the Monte Carlo loop, the
percentile summary, and the locally-caught risk-distribution generation
(`Except.toOption` models the `try/except` that stores `None` on failure). -/
noncomputable def coreResult (cfg : Config) (draws : ℕ → TrialDraw) : ExposureResult :=
  let Q0_val := cfg.Q0_val * cfg.f_e_val * cfg.omicron_val
  let p_val := cfg.p_val * cfg.f_i_val
  let q_total := cfg.ACH_val * cfg.room_volume_val * 1000 / 3600
  let q_e := q_total
  let activity_choice := normalized_activity_choice cfg.activity_choice
  let N_masked := ⌊(cfg.N_val : ℚ) * cfg.percentage_masked_val⌋
  let N_unmasked := cfg.N_val - N_masked
  let all_risks_pf := engineRisks cfg draws
  let mc_mean_pf := npMean all_risks_pf
  let mc_pf_ci_5 := npPercentile all_risks_pf 5
  let mc_pf_ci_95 := npPercentile all_risks_pf 95
  let mc_pf_ci_25 := npPercentile all_risks_pf 25
  let mc_pf_ci_75 := npPercentile all_risks_pf 75
  let mc_pf_ci_0_5 := npPercentile all_risks_pf 0.5
  let mc_pf_ci_99_5 := npPercentile all_risks_pf 99.5
  let mc_pf_median := npPercentile all_risks_pf 50
  { risk := mc_mean_pf
    q_e := q_e
    ACH := cfg.ACH_val
    room_volume := cfg.room_volume_val
    activity_label := activity_label_of activity_choice
    inputs := { C0 := cfg.C0_val, Q0 := Q0_val, p := p_val, delta_t := cfg.delta_t_val,
                x := cfg.x_val, gamma := cfg.gamma_val,
                activity_choice := activity_choice,
                f_e := cfg.f_e_val, f_i := cfg.f_i_val, omicron := cfg.omicron_val,
                covid_prevalence := cfg.covid_prevalence_val, immune := cfg.immune_val,
                N := cfg.N_val, percentage_masked := cfg.percentage_masked_val }
    N_masked := N_masked
    N_unmasked := N_unmasked
    mc_mean_pf := mc_mean_pf
    mc_pf_ci_5 := mc_pf_ci_5
    mc_pf_ci_95 := mc_pf_ci_95
    mc_pf_ci_25 := mc_pf_ci_25
    mc_pf_ci_75 := mc_pf_ci_75
    mc_pf_ci_0_5 := mc_pf_ci_0_5
    mc_pf_ci_99_5 := mc_pf_ci_99_5
    mc_pf_median := mc_pf_median
    mc_mean := mc_mean_pf
    mc_median := mc_pf_median
    mc_ci_5 := mc_pf_ci_5
    mc_ci_95 := mc_pf_ci_95
    mc_ci_25 := mc_pf_ci_25
    mc_ci_75 := mc_pf_ci_75
    mc_ci_0_5 := mc_pf_ci_0_5
    mc_ci_99_5 := mc_pf_ci_99_5
    risk_distribution_data := (generate_risk_distribution_data all_risks_pf).toOption }

/-- The raw parse results of the validation block (all fourteen
`safe_float` fields as Python floats, `N` as int). -/
structure RawConfig where
  C0_val : PyVal
  Q0_val : PyVal
  p_val : PyVal
  ACH_val : PyVal
  room_volume_val : PyVal
  delta_t_val : PyVal
  x_val : PyVal
  gamma_val : PyVal
  f_e_val : PyVal
  f_i_val : PyVal
  omicron_val : PyVal
  covid_prev_pct : PyVal
  immune_val : PyVal
  N_val : ℤ
  percentage_masked_val : PyVal

/-- All float-typed fields are finite (no `inf`/`nan` slipped through). -/
def RawConfig.allFinite (r : RawConfig) : Bool :=
  r.C0_val.isFinite && r.Q0_val.isFinite && r.p_val.isFinite && r.ACH_val.isFinite &&
    r.room_volume_val.isFinite && r.delta_t_val.isFinite && r.x_val.isFinite &&
    r.gamma_val.isFinite && r.f_e_val.isFinite && r.f_i_val.isFinite &&
    r.omicron_val.isFinite && r.covid_prev_pct.isFinite && r.immune_val.isFinite &&
    r.percentage_masked_val.isFinite

/-- The string arguments of `calculate_unified_transmission_exposure`, in
source order (keyword parameters with non-string defaults are carried as
explicit fields). -/
structure EngineArgs where
  C0 : PyArg
  Q0 : PyArg
  p : PyArg
  ACH : PyArg
  room_volume : PyArg
  delta_t : PyArg
  x : PyArg
  gamma : PyArg
  f_e : PyArg
  f_i : PyArg
  omicron : PyArg
  covid_prevalence : PyArg
  immune : PyArg
  N : PyArg
  activity_choice : String
  percentage_masked : PyArg
  user_physical_activity : String
  others_physical_activity : String
  others_vocal_activity : String
  RH : ℝ
  CO2 : ℝ
  inside_temp : ℝ
  immunocompromised_status : String

/-- The validation block of `calculate_unified_transmission_exposure`
(lines 479-530): convert every required field with `safe_float`/`safe_int`,
collect the error strings in source order, and fail with the generic
message when any is nonempty. -/
def validateInputs (a : EngineArgs) : Except String RawConfig :=
  let r1 := safe_float a.C0 0.1
  let r2 := safe_float a.Q0 0.1
  let r3 := safe_float a.p 0.1
  let r4 := safe_float a.ACH 1.0
  let r5 := safe_float a.room_volume 1000.0
  let r6 := safe_float a.delta_t 42.0
  let r7 := safe_float a.x 0.7
  let r8 := safe_float a.gamma 0.5
  let r9 := safe_float a.f_e 1.0
  let r10 := safe_float a.f_i 1.0
  let r11 := safe_float a.omicron 4.20
  let r12 := safe_float a.covid_prevalence 1.0
  let r13 := safe_float a.immune 1.0
  let r14 := safe_int a.N 1
  let r15 := safe_float a.percentage_masked 0.0
  let errors := [r1.2, r2.2, r3.2, r4.2, r5.2, r6.2, r7.2, r8.2, r9.2, r10.2,
    r11.2, r12.2, r13.2, r14.2, r15.2]
  if errors.any fun e => e ≠ "" then
    .error "Invalid input; please enter numeric values."
  else
    .ok { C0_val := r1.1, Q0_val := r2.1, p_val := r3.1, ACH_val := r4.1,
          room_volume_val := r5.1, delta_t_val := r6.1, x_val := r7.1,
          gamma_val := r8.1, f_e_val := r9.1, f_i_val := r10.1,
          omicron_val := r11.1, covid_prev_pct := r12.1, immune_val := r13.1,
          N_val := r14.1, percentage_masked_val := r15.1 }

/-- Package the finite parse results with the categorical parameters into
the numeric configuration (`covid_prevalence_val = covid_prev_pct / 100`
as in the source's prevalence handling). -/
def RawConfig.toConfig (r : RawConfig) (a : EngineArgs) : Config :=
  { C0_val := r.C0_val.toRat, Q0_val := r.Q0_val.toRat, p_val := r.p_val.toRat,
    ACH_val := r.ACH_val.toRat, room_volume_val := r.room_volume_val.toRat,
    delta_t_val := r.delta_t_val.toRat, x_val := r.x_val.toRat,
    gamma_val := r.gamma_val.toRat, f_e_val := r.f_e_val.toRat,
    f_i_val := r.f_i_val.toRat, omicron_val := r.omicron_val.toRat,
    covid_prevalence_val := r.covid_prev_pct.toRat / 100,
    immune_val := r.immune_val.toRat, N_val := r.N_val,
    percentage_masked_val := r.percentage_masked_val.toRat,
    activity_choice := a.activity_choice,
    user_physical_activity := a.user_physical_activity,
    others_physical_activity := a.others_physical_activity,
    others_vocal_activity := a.others_vocal_activity,
    RH := a.RH, CO2 := a.CO2, inside_temp := a.inside_temp,
    immunocompromised_status := a.immunocompromised_status }

/-- Outcome of one engine invocation: the single-key error dictionary, a
successful result, or `nonreal` marking configurations whose validated
floats are IEEE infinities/NaN — Python would continue with float
arithmetic on them, which leaves this real-number embedding (no claim
depends on that arithmetic). -/
inductive ExposureOutcome where
  | error (msg : String)
  | ok (r : ExposureResult)
  | nonreal

/-- `calculate_unified_transmission_exposure`: validate, then run the
Monte Carlo engine. -/
noncomputable def calculate_unified_transmission_exposure
    (a : EngineArgs) (draws : ℕ → TrialDraw) : ExposureOutcome :=
  match validateInputs a with
  | .error msg => .error msg
  | .ok raw =>
    if raw.allFinite then .ok (coreResult (raw.toConfig a) draws)
    else .nonreal

/-- The validated, finite configuration of an engine invocation, when one
exists. -/
def validatedConfig (a : EngineArgs) : Option Config :=
  match validateInputs a with
  | .error _ => none
  | .ok raw => if raw.allFinite then some (raw.toConfig a) else none

/-- Projection used to state claims: the reported risk of an outcome
(junk value 0 in the non-`ok` cases). -/
noncomputable def ExposureOutcome.reportedRisk : ExposureOutcome → ℝ
  | .ok r => r.risk
  | _ => 0

/-- Projection used to state claims: the reported Monte Carlo mean. -/
noncomputable def ExposureOutcome.reportedMeanPF : ExposureOutcome → ℝ
  | .ok r => r.mc_mean_pf
  | _ => 0

/-- `true` exactly on successful results. -/
def ExposureOutcome.isOk : ExposureOutcome → Bool
  | .ok _ => true
  | _ => false

/-- `true` exactly on the single-key error dictionary. -/
def ExposureOutcome.isError : ExposureOutcome → Bool
  | .error _ => true
  | _ => false

/- ────────────────────────────────────────────────────────────────────────
   Statement-support definitions (predicates and concrete inputs used by
   the claim theorems, their witnesses and counterexamples).
   ──────────────────────────────────────────────────────────────────────── -/

/-- Every trial's draws lie in the support of their distributions. -/
def DrawsInSupport (draws : ℕ → TrialDraw) : Prop :=
  ∀ i, (draws i).InSupport

/-- All risk values reported by a successful engine run — the mean
(`risk` / `mc_mean_pf`), the median, and every percentile bound — lie in
the closed unit interval. -/
def ExposureResult.reportedIn01 (r : ExposureResult) : Prop :=
  (0 ≤ r.risk ∧ r.risk ≤ 1) ∧
  (0 ≤ r.mc_mean_pf ∧ r.mc_mean_pf ≤ 1) ∧
  (0 ≤ r.mc_pf_median ∧ r.mc_pf_median ≤ 1) ∧
  (0 ≤ r.mc_pf_ci_5 ∧ r.mc_pf_ci_5 ≤ 1) ∧
  (0 ≤ r.mc_pf_ci_95 ∧ r.mc_pf_ci_95 ≤ 1) ∧
  (0 ≤ r.mc_pf_ci_25 ∧ r.mc_pf_ci_25 ≤ 1) ∧
  (0 ≤ r.mc_pf_ci_75 ∧ r.mc_pf_ci_75 ≤ 1) ∧
  (0 ≤ r.mc_pf_ci_0_5 ∧ r.mc_pf_ci_0_5 ≤ 1) ∧
  (0 ≤ r.mc_pf_ci_99_5 ∧ r.mc_pf_ci_99_5 ≤ 1)

/-- A required field holding a non-empty string that does not parse as a
float (the situation of claim C2). -/
def BadFloatField (v : PyArg) : Prop :=
  ∃ s, v = .pyStr s ∧ pyStripChars s.data ≠ [] ∧ pyFloatOfChars (pyStripChars s.data) = none

/-- A required field holding a non-empty string that does not parse as an
int. -/
def BadIntField (v : PyArg) : Prop :=
  ∃ s, v = .pyStr s ∧ pyStripChars s.data ≠ [] ∧ pyIntOfChars (pyStripChars s.data) = none

/-- Membership test against the histogram's covered range
`[first edge, last edge]`. -/
noncomputable def binsRange (edges : List ℝ) (v : ℝ) : Bool :=
  decide (edges.getD 0 0 ≤ v) && decide (v ≤ edges.getD (edges.length - 1) 0)

/-- A person draw with every unit/normal draw at zero (infectious, since
`0 < prevalence` for positive prevalence). -/
noncomputable def zeroPersonDraw : PersonDraw :=
  { u_infected := 0, w_viral := 0, u_f_inf := 0, z_BR := 0, u_mask := 0 }

/-- A person draw whose infection draw is `1/2` (not infectious at the
default 1% prevalence). -/
noncomputable def halfPersonDraw : PersonDraw :=
  { u_infected := 1 / 2, w_viral := 0, u_f_inf := 0, z_BR := 0, u_mask := 0 }

/-- A trial draw with every draw at zero and all-zero person draws. -/
noncomputable def zeroTrialDraw : TrialDraw :=
  { z_omicron := 0, u_ID50 := 0, z_userBR := 0, z_PF := 0, person := fun _ => zeroPersonDraw }

/-- A trial draw whose occupants are all non-infectious at 1% prevalence. -/
noncomputable def halfTrialDraw : TrialDraw :=
  { z_omicron := 0, u_ID50 := 0, z_userBR := 0, z_PF := 0, person := fun _ => halfPersonDraw }

/-- Engine arguments with every string field empty (every numeric field
takes its default) and the default keyword parameters. -/
def argsAllEmpty : EngineArgs :=
  { C0 := .pyStr "", Q0 := .pyStr "", p := .pyStr "", ACH := .pyStr "",
    room_volume := .pyStr "", delta_t := .pyStr "", x := .pyStr "",
    gamma := .pyStr "", f_e := .pyStr "", f_i := .pyStr "", omicron := .pyStr "",
    covid_prevalence := .pyStr "", immune := .pyStr "", N := .pyStr "",
    activity_choice := "2", percentage_masked := .pyStr "0",
    user_physical_activity := "standing", others_physical_activity := "standing",
    others_vocal_activity := "speaking", RH := 0.40, CO2 := 800.0,
    inside_temp := 293.15, immunocompromised_status := "normal" }

/-- Arguments for the claim C1 counterexample: all fields validate, but the
exposure duration is the negative string "-3600" (validation does not
range-check). -/
def cexArgs : EngineArgs :=
  { argsAllEmpty with
    Q0 := .pyStr "1", p := .pyStr "1", ACH := .pyStr "1",
    room_volume := .pyStr "1", delta_t := .pyStr "-3600", x := .pyStr "10000",
    f_e := .pyStr "1", f_i := .pyStr "1", omicron := .pyStr "1",
    covid_prevalence := .pyStr "100", immune := .pyStr "1", N := .pyStr "1" }

/-- The validated configuration produced by `cexArgs` (fields written in
the unnormalized form the parser constructs, so that
`validatedConfig cexArgs = some cexConfig` holds definitionally). -/
def cexConfig : Config :=
  { C0_val := 0.1, Q0_val := ((1 : ℕ) : ℚ), p_val := ((1 : ℕ) : ℚ),
    ACH_val := ((1 : ℕ) : ℚ), room_volume_val := ((1 : ℕ) : ℚ),
    delta_t_val := -((3600 : ℕ) : ℚ), x_val := ((10000 : ℕ) : ℚ),
    gamma_val := 0.5, f_e_val := ((1 : ℕ) : ℚ), f_i_val := ((1 : ℕ) : ℚ),
    omicron_val := ((1 : ℕ) : ℚ), covid_prevalence_val := ((100 : ℕ) : ℚ) / 100,
    immune_val := ((1 : ℕ) : ℚ), N_val := ((1 : ℕ) : ℤ),
    percentage_masked_val := ((0 : ℕ) : ℚ),
    activity_choice := "2", user_physical_activity := "standing",
    others_physical_activity := "standing", others_vocal_activity := "speaking",
    RH := 0.40, CO2 := 800.0, inside_temp := 293.15,
    immunocompromised_status := "normal" }

/-- The default configuration produced by `argsAllEmpty`. -/
def defaultConfig : Config :=
  { C0_val := 0.1, Q0_val := 0.1, p_val := 0.1, ACH_val := 1.0,
    room_volume_val := 1000.0, delta_t_val := 42.0, x_val := 0.7,
    gamma_val := 0.5, f_e_val := 1.0, f_i_val := 1.0, omicron_val := 4.20,
    covid_prevalence_val := (1.0 : ℚ) / 100, immune_val := 1.0, N_val := 1,
    percentage_masked_val := ((0 : ℕ) : ℚ),
    activity_choice := "2", user_physical_activity := "standing",
    others_physical_activity := "standing", others_vocal_activity := "speaking",
    RH := 0.40, CO2 := 800.0, inside_temp := 293.15,
    immunocompromised_status := "normal" }

/-- The 20 bin edges `np.arange(0.04, 1.2, 0.06)` produced on the
two-trial risk array `[0, 1]` (claim C6). -/
noncomputable def cex6Edges : List ℝ :=
  [0.04, 0.1, 0.16, 0.22, 0.28, 0.34, 0.4, 0.46, 0.52, 0.58,
   0.64, 0.7, 0.76, 0.82, 0.88, 0.94, 1.0, 1.06, 1.12, 1.18]

/- ────────────────────────────────────────────────────────────────────────
   Theorems.  Helper lemmas first, then one theorem per claim (with
   witnesses and counterexamples where required).
   ──────────────────────────────────────────────────────────────────────── -/

theorem safe_float_error_of_bad (v : PyArg) (df : ℚ) (h : BadFloatField v) :
    (safe_float v df).2 ≠ "" := by
  obtain ⟨s, rfl, hne, hparse⟩ := h
  unfold safe_float pyStrip
  rw [if_neg hne]
  simp only [hparse]
  intro heq
  have := congrArg String.data heq
  simp only [String.data_append] at this
  exact absurd (List.append_eq_nil.mp this).1 (by decide)

theorem safe_int_error_of_bad (v : PyArg) (di : ℤ) (h : BadIntField v) :
    (safe_int v di).2 ≠ "" := by
  obtain ⟨s, rfl, hne, hparse⟩ := h
  unfold safe_int pyStrip
  rw [if_neg hne]
  simp only [hparse]
  intro heq
  have := congrArg String.data heq
  simp only [String.data_append] at this
  exact absurd (List.append_eq_nil.mp this).1 (by decide)

/-- claim C10: `safe_float`/`safe_int` silently substitute the default with
an empty error for every non-string input (None, actual numbers, other
objects) and for every whitespace-only string; only non-empty strings that
fail to parse ever produce a nonempty error message. -/
theorem claim10_silent_defaults :
    (∀ (v : PyArg) (df : ℚ) (di : ℤ), (∀ s, v ≠ .pyStr s) →
      safe_float v df = (.num df, "") ∧ safe_int v di = (di, "")) ∧
    (∀ (s : String) (df : ℚ) (di : ℤ), pyStripChars s.data = [] →
      safe_float (.pyStr s) df = (.num df, "") ∧ safe_int (.pyStr s) di = (di, "")) ∧
    (∀ (v : PyArg) (df : ℚ), (safe_float v df).2 ≠ "" →
      ∃ s, v = .pyStr s ∧ pyStripChars s.data ≠ [] ∧
        pyFloatOfChars (pyStripChars s.data) = none) ∧
    (∀ (v : PyArg) (di : ℤ), (safe_int v di).2 ≠ "" →
      ∃ s, v = .pyStr s ∧ pyStripChars s.data ≠ [] ∧
        pyIntOfChars (pyStripChars s.data) = none) := by
  refine ⟨?_, ?_, ?_, ?_⟩
  · intro v df di h
    cases v with
    | pyStr s => exact absurd rfl (h s)
    | pyNone => exact ⟨rfl, rfl⟩
    | pyNum q => exact ⟨rfl, rfl⟩
    | pyOther => exact ⟨rfl, rfl⟩
  · intro s df di h
    constructor
    · unfold safe_float pyStrip
      rw [if_pos h]
    · unfold safe_int pyStrip
      rw [if_pos h]
  · intro v df h
    cases v with
    | pyStr s =>
      refine ⟨s, rfl, ?_, ?_⟩ <;>
      · unfold safe_float pyStrip at h
        by_cases hs : pyStripChars s.data = []
        · rw [if_pos hs] at h; exact absurd rfl h
        · rw [if_neg hs] at h
          first
          | exact hs
          | cases hp : pyFloatOfChars (pyStripChars s.data) with
            | some w => rw [hp] at h; exact absurd rfl h
            | none => rfl
    | pyNone => exact absurd rfl h
    | pyNum q => exact absurd rfl h
    | pyOther => exact absurd rfl h
  · intro v di h
    cases v with
    | pyStr s =>
      refine ⟨s, rfl, ?_, ?_⟩ <;>
      · unfold safe_int pyStrip at h
        by_cases hs : pyStripChars s.data = []
        · rw [if_pos hs] at h; exact absurd rfl h
        · rw [if_neg hs] at h
          first
          | exact hs
          | cases hp : pyIntOfChars (pyStripChars s.data) with
            | some w => rw [hp] at h; exact absurd rfl h
            | none => rfl
    | pyNone => exact absurd rfl h
    | pyNum q => exact absurd rfl h
    | pyOther => exact absurd rfl h

/-- Witness for claim C10: the float `5.0` and `None` silently become the
defaults, a whitespace string too. -/
theorem claim10_witness :
    (safe_float (.pyNum 5) 7 = (.num 7, "") ∧ safe_int (.pyNum 5) 3 = (3, "")) ∧
    (safe_float .pyNone 7 = (.num 7, "") ∧ safe_int .pyNone 3 = (3, "")) ∧
    (safe_float (.pyStr "  ") 7 = (.num 7, "") ∧ safe_int (.pyStr "  ") 3 = (3, "")) :=
  ⟨claim10_silent_defaults.1 (.pyNum 5) 7 3 (fun s h => PyArg.noConfusion h),
   claim10_silent_defaults.1 .pyNone 7 3 (fun s h => PyArg.noConfusion h),
   claim10_silent_defaults.2.1 "  " 7 3 (by decide)⟩

/-- claim C2: if any required field is a non-empty string that does not
parse (float fields via `safe_float`, the occupant count via `safe_int`),
the engine returns exactly the single-key error object — independently of
the draws, so no Monte Carlo trial is run. -/
theorem claim2_invalid_field_single_error (a : EngineArgs) (draws : ℕ → TrialDraw)
    (hbad : BadFloatField a.C0 ∨ BadFloatField a.Q0 ∨ BadFloatField a.p ∨
      BadFloatField a.ACH ∨ BadFloatField a.room_volume ∨ BadFloatField a.delta_t ∨
      BadFloatField a.x ∨ BadFloatField a.gamma ∨ BadFloatField a.f_e ∨
      BadFloatField a.f_i ∨ BadFloatField a.omicron ∨ BadFloatField a.covid_prevalence ∨
      BadFloatField a.immune ∨ BadIntField a.N ∨ BadFloatField a.percentage_masked) :
    calculate_unified_transmission_exposure a draws =
      .error "Invalid input; please enter numeric values." := by
  have hval : validateInputs a = .error "Invalid input; please enter numeric values." := by
    unfold validateInputs
    rw [if_pos]
    rw [List.any_eq_true]
    rcases hbad with h|h|h|h|h|h|h|h|h|h|h|h|h|h|h
    · exact ⟨_, by simp, decide_eq_true (safe_float_error_of_bad _ 0.1 h)⟩
    · exact ⟨_, by simp, decide_eq_true (safe_float_error_of_bad _ 0.1 h)⟩
    · exact ⟨_, by simp, decide_eq_true (safe_float_error_of_bad _ 0.1 h)⟩
    · exact ⟨_, by simp, decide_eq_true (safe_float_error_of_bad _ 1.0 h)⟩
    · exact ⟨_, by simp, decide_eq_true (safe_float_error_of_bad _ 1000.0 h)⟩
    · exact ⟨_, by simp, decide_eq_true (safe_float_error_of_bad _ 42.0 h)⟩
    · exact ⟨_, by simp, decide_eq_true (safe_float_error_of_bad _ 0.7 h)⟩
    · exact ⟨_, by simp, decide_eq_true (safe_float_error_of_bad _ 0.5 h)⟩
    · exact ⟨_, by simp, decide_eq_true (safe_float_error_of_bad _ 1.0 h)⟩
    · exact ⟨_, by simp, decide_eq_true (safe_float_error_of_bad _ 1.0 h)⟩
    · exact ⟨_, by simp, decide_eq_true (safe_float_error_of_bad _ 4.20 h)⟩
    · exact ⟨_, by simp, decide_eq_true (safe_float_error_of_bad _ 1.0 h)⟩
    · exact ⟨_, by simp, decide_eq_true (safe_float_error_of_bad _ 1.0 h)⟩
    · exact ⟨_, by simp, decide_eq_true (safe_int_error_of_bad _ 1 h)⟩
    · exact ⟨_, by simp, decide_eq_true (safe_float_error_of_bad _ 0.0 h)⟩
  unfold calculate_unified_transmission_exposure
  rw [hval]

/-- Witness for claim C2: room volume `"abc"` yields exactly the error
object. -/
theorem claim2_witness :
    calculate_unified_transmission_exposure
      { argsAllEmpty with room_volume := .pyStr "abc" } (fun _ => halfTrialDraw) =
      .error "Invalid input; please enter numeric values." :=
  claim2_invalid_field_single_error _ _
    (Or.inr (Or.inr (Or.inr (Or.inr (Or.inl ⟨"abc", rfl, by decide, by decide⟩)))))

/-- claim C3: the adaptive trial count is a pure function of the expected
number of infectious occupants with exactly the bands
`< 0.5 → 25000`, `[0.5, 2) → 8000`, `[2, 5) → 2000`, `[5, 10) → 1000`,
`≥ 10 → 300`. -/
theorem claim3_adaptive_trial_bands (e : ℚ) :
    (e < 0.5 → adaptive_n_sims e = 25000) ∧
    (0.5 ≤ e ∧ e < 2.0 → adaptive_n_sims e = 8000) ∧
    (2.0 ≤ e ∧ e < 5.0 → adaptive_n_sims e = 2000) ∧
    (5.0 ≤ e ∧ e < 10.0 → adaptive_n_sims e = 1000) ∧
    (10.0 ≤ e → adaptive_n_sims e = 300) := by
  unfold adaptive_n_sims
  refine ⟨fun h => ?_, fun h => ?_, fun h => ?_, fun h => ?_, fun h => ?_⟩ <;>
    split_ifs with h1 h2 h3 h4 <;> first | rfl | (exfalso; norm_num at *) <;> linarith

/-- Witness for claim C3: values at and around the boundaries. -/
theorem claim3_witness :
    adaptive_n_sims (1/4) = 25000 ∧ adaptive_n_sims (1/2) = 8000 ∧
      adaptive_n_sims 2 = 2000 ∧ adaptive_n_sims 5 = 1000 ∧ adaptive_n_sims 10 = 300 :=
  ⟨(claim3_adaptive_trial_bands (1/4)).1 (by norm_num),
   (claim3_adaptive_trial_bands (1/2)).2.1 ⟨by norm_num, by norm_num⟩,
   (claim3_adaptive_trial_bands 2).2.2.1 ⟨by norm_num, by norm_num⟩,
   (claim3_adaptive_trial_bands 5).2.2.2.1 ⟨by norm_num, by norm_num⟩,
   (claim3_adaptive_trial_bands 10).2.2.2.2 (by norm_num)⟩

/-- claim C4: for every positive breathing rate, the puff-like dilution
formula evaluated at the jet→puff transition distance coincides exactly
with the jet-like formula there — the dilution factor is continuous at the
regime boundary. -/
theorem claim4_dilution_continuous_at_transition (BR : ℝ) (hBR : 0 < BR) :
    Sx_puff (calculate_henriques_jet_parameters BR).x_transition
        (calculate_henriques_jet_parameters BR).x_transition
        (calculate_henriques_jet_parameters BR).x0_j =
      Sx_jet (calculate_henriques_jet_parameters BR).x_transition
        (calculate_henriques_jet_parameters BR).x0_j := by
  unfold Sx_puff
  rw [sub_self]
  rw [mul_zero, zero_div, add_zero, one_pow, mul_one]

/-- Witness for claim C4 at breathing rate 1 m³/h. -/
theorem claim4_witness :
    Sx_puff (calculate_henriques_jet_parameters 1).x_transition
        (calculate_henriques_jet_parameters 1).x_transition
        (calculate_henriques_jet_parameters 1).x0_j =
      Sx_jet (calculate_henriques_jet_parameters 1).x_transition
        (calculate_henriques_jet_parameters 1).x0_j :=
  claim4_dilution_continuous_at_transition 1 one_pos

theorem Ds_pos (i : ℕ) : 0 < Ds i :=
  Real.rpow_pos_of_pos (by norm_num) _

theorem npLog10_lt : npLog10 0.1 < npLog10 30.0 := by
  unfold npLog10
  exact Real.logb_lt_logb (by norm_num) (by norm_num) (by norm_num)

theorem Ds_lt_Ds {i j : ℕ} (h : i < j) : Ds i < Ds j := by
  unfold Ds
  rw [Real.rpow_lt_rpow_left_iff (by norm_num : (1:ℝ) < 10)]
  have hd : 0 < (npLog10 30.0 - npLog10 0.1) / 49 :=
    div_pos (sub_pos.mpr npLog10_lt) (by norm_num)
  have hij : (i : ℝ) < (j : ℝ) := by exact_mod_cast h
  nlinarith

theorem Ds_zero : Ds 0 = 0.1 := by
  unfold Ds npLog10
  norm_num

theorem Ds_49 : Ds 49 = 30 := by
  unfold Ds npLog10
  rw [show ((49 : ℕ) : ℝ) = (49 : ℝ) from by norm_num]
  rw [show Real.logb 10 0.1 + (49 : ℝ) * ((Real.logb 10 30.0 - Real.logb 10 0.1) / 49) =
    Real.logb 10 30.0 from by ring]
  rw [Real.rpow_logb (by norm_num) (by norm_num) (by norm_num)]
  norm_num

theorem dDs_pos (i : ℕ) (h : i < 50) : 0 < dDs i := by
  unfold dDs
  split_ifs with h0 h49
  · exact sub_pos.mpr (Ds_lt_Ds (by omega))
  · exact sub_pos.mpr (Ds_lt_Ds (by omega))
  · have hlt : Ds (i - 1) < Ds (i + 1) := Ds_lt_Ds (by omega)
    linarith

theorem dDs_zero_eq : dDs 0 = Ds 1 - Ds 0 := by
  unfold dDs; simp

theorem dDs_49_eq : dDs 49 = Ds 49 - Ds 48 := by
  unfold dDs; norm_num

theorem dDs_sum :
    ∑ i ∈ Finset.range 50, dDs i =
      (Ds 49 - Ds 0) + ((Ds 1 - Ds 0) + (Ds 49 - Ds 48)) / 2 := by
  have hg : ∀ n : ℕ, ∑ i ∈ Finset.range n, (Ds (i + 1) - Ds i) = Ds n - Ds 0 :=
    fun n => Finset.sum_range_sub Ds n
  have hcongr : ∑ i ∈ Finset.Ico 1 49, dDs i =
      ∑ i ∈ Finset.Ico 1 49, (((Ds (i + 1) - Ds i) + (Ds i - Ds (i - 1))) / 2) := by
    refine Finset.sum_congr rfl fun i hi => ?_
    rw [Finset.mem_Ico] at hi
    unfold dDs
    rw [if_neg (by omega), if_neg (by omega)]
    ring_nf
  have hA : ∑ i ∈ Finset.Ico 1 49, (Ds (i + 1) - Ds i) = (Ds 49 - Ds 0) - (Ds 1 - Ds 0) := by
    rw [Finset.sum_Ico_eq_sub _ (by omega), hg 49]
    simp [Finset.sum_range_one]
  have hB : ∑ i ∈ Finset.Ico 1 49, (Ds i - Ds (i - 1)) = Ds 48 - Ds 0 := by
    rw [Finset.sum_Ico_eq_sum_range]
    have : ∀ i : ℕ, Ds (1 + i) - Ds (1 + i - 1) = Ds (i + 1) - Ds i := by
      intro i
      congr 1
      · rw [Nat.add_comm]
      · congr 1
        omega
    rw [Finset.sum_congr rfl fun i _ => this i]
    rw [show (49 : ℕ) - 1 = 48 from rfl, hg 48]
  have hmid : ∑ i ∈ Finset.Ico 1 49, dDs i =
      (((Ds 49 - Ds 0) - (Ds 1 - Ds 0)) + (Ds 48 - Ds 0)) / 2 := by
    rw [hcongr]
    rw [show (fun i => (((Ds (i + 1) - Ds i) + (Ds i - Ds (i - 1))) / 2)) =
      (fun i => ((Ds (i + 1) - Ds i) / 2 + (Ds i - Ds (i - 1)) / 2)) from by
        funext i; ring]
    rw [Finset.sum_add_distrib, ← Finset.sum_div, ← Finset.sum_div, hA, hB]
    ring
  have hpeel : ∑ i ∈ Finset.range 50, dDs i =
      dDs 0 + ∑ i ∈ Finset.Ico 1 49, dDs i + dDs 49 := by
    rw [Finset.sum_range_succ]
    rw [Finset.range_eq_Ico, Finset.sum_eq_sum_Ico_succ_bot (by omega)]
  rw [hpeel, hmid, dDs_zero_eq, dDs_49_eq]
  ring

/-- Counterexample to claim C8: the bin widths do not sum to the covered
range `Ds 49 - Ds 0` — the central-difference widths over-cover it by half
of the first and last grid gaps. -/
theorem claim8_counterexample :
    ∑ i ∈ Finset.range 50, dDs i ≠ Ds 49 - Ds 0 := by
  rw [dDs_sum]
  have h1 : 0 < Ds 1 - Ds 0 := sub_pos.mpr (Ds_lt_Ds (by omega))
  have h2 : 0 < Ds 49 - Ds 48 := sub_pos.mpr (Ds_lt_Ds (by omega))
  intro h
  nlinarith

/-- claim C8 amended: every bin width of the 50-point log-spaced particle
grid over 0.1-30 µm is strictly positive, and the widths sum to the covered
range plus half of the first and last grid gaps (not to the bare range). -/
theorem claim8_amended :
    (∀ i, i < 50 → 0 < dDs i) ∧ Ds 0 = 0.1 ∧ Ds 49 = 30 ∧
      ∑ i ∈ Finset.range 50, dDs i =
        (Ds 49 - Ds 0) + ((Ds 1 - Ds 0) + (Ds 49 - Ds 48)) / 2 :=
  ⟨fun i hi => dDs_pos i hi, Ds_zero, Ds_49, dDs_sum⟩

/-- Witness for claim C8 amended: the first bin width is positive. -/
theorem claim8_amended_witness : 0 < dDs 0 :=
  claim8_amended.1 0 (by norm_num)

theorem npSort_perm (l : List ℝ) : (npSort l).Perm l :=
  List.perm_insertionSort _ l

theorem npSort_length (l : List ℝ) : (npSort l).length = l.length :=
  (npSort_perm l).length_eq

theorem npSort_getD_mem (l : List ℝ) (i : ℕ) (h : i < l.length) :
    (npSort l).getD i 0 ∈ l := by
  have hlen : i < (npSort l).length := by rw [npSort_length]; exact h
  rw [List.getD_eq_getElem _ _ hlen]
  exact (npSort_perm l).mem_iff.mp (List.getElem_mem hlen)

theorem npPercentile_eq (l : List ℝ) (q : ℝ) :
    npPercentile l q =
      (npSort l).getD (⌊((l.length : ℝ) - 1) * q / 100⌋).toNat 0 +
        ((npSort l).getD (⌈((l.length : ℝ) - 1) * q / 100⌉).toNat 0 -
          (npSort l).getD (⌊((l.length : ℝ) - 1) * q / 100⌋).toNat 0) *
          (((l.length : ℝ) - 1) * q / 100 - ⌊((l.length : ℝ) - 1) * q / 100⌋) := rfl

theorem npPercentile_bounds (l : List ℝ) (hne : l ≠ []) (lo hi : ℝ)
    (hmem : ∀ v ∈ l, lo ≤ v ∧ v ≤ hi) (q : ℝ) (hq0 : 0 ≤ q) (hq1 : q ≤ 100) :
    lo ≤ npPercentile l q ∧ npPercentile l q ≤ hi := by
  rw [npPercentile_eq]
  have hn1 : 1 ≤ l.length := List.length_pos.mpr hne
  have hn1R : (1 : ℝ) ≤ (l.length : ℝ) := by exact_mod_cast hn1
  set h := ((l.length : ℝ) - 1) * q / 100 with hh
  have hh0 : 0 ≤ h := by
    apply div_nonneg (mul_nonneg (by linarith) hq0) (by norm_num)
  have hhle : h ≤ (l.length : ℝ) - 1 := by
    rw [hh, div_le_iff₀ (by norm_num : (0:ℝ) < 100)]
    nlinarith
  have hfl : (0 : ℤ) ≤ ⌊h⌋ := Int.floor_nonneg.mpr hh0
  have hcl : (0 : ℤ) ≤ ⌈h⌉ := Int.ceil_nonneg hh0
  have hfub : ⌊h⌋ ≤ (l.length : ℤ) - 1 := by
    have h1 : ⌊h⌋ ≤ ⌊(l.length : ℝ) - 1⌋ := Int.floor_le_floor hhle
    have h2 : ((l.length : ℝ) - 1) = (((l.length : ℤ) - 1 : ℤ) : ℝ) := by push_cast; ring
    rw [h2, Int.floor_intCast] at h1
    exact h1
  have hcub : ⌈h⌉ ≤ (l.length : ℤ) - 1 := by
    have h1 : ⌈h⌉ ≤ ⌈(l.length : ℝ) - 1⌉ := Int.ceil_le_ceil hhle
    have h2 : ((l.length : ℝ) - 1) = (((l.length : ℤ) - 1 : ℤ) : ℝ) := by push_cast; ring
    rw [h2, Int.ceil_intCast] at h1
    exact h1
  have hfi : ⌊h⌋.toNat < l.length := by omega
  have hci : ⌈h⌉.toNat < l.length := by omega
  have hlo := hmem _ (npSort_getD_mem l _ hfi)
  have hhi := hmem _ (npSort_getD_mem l _ hci)
  have ht0 : 0 ≤ h - ⌊h⌋ := by
    have := Int.floor_le h
    linarith
  have ht1 : h - ⌊h⌋ ≤ 1 := by
    have := Int.lt_floor_add_one h
    linarith
  constructor
  · nlinarith [mul_nonneg (sub_nonneg.mpr hlo.1) (sub_nonneg.mpr ht1),
      mul_nonneg (sub_nonneg.mpr hhi.1) ht0]
  · nlinarith [mul_nonneg (sub_nonneg.mpr hlo.2) (sub_nonneg.mpr ht1),
      mul_nonneg (sub_nonneg.mpr hhi.2) ht0]

theorem npMean_bounds (l : List ℝ) (hne : l ≠ []) (lo hi : ℝ)
    (hmem : ∀ v ∈ l, lo ≤ v ∧ v ≤ hi) :
    lo ≤ npMean l ∧ npMean l ≤ hi := by
  unfold npMean
  have hn1 : 0 < l.length := List.length_pos.mpr hne
  have hnR : (0 : ℝ) < (l.length : ℝ) := by exact_mod_cast hn1
  have hub : l.sum ≤ l.length • hi := List.sum_le_card_nsmul l hi fun x hx => (hmem x hx).2
  have hlb : l.length • lo ≤ l.sum := List.card_nsmul_le_sum l lo fun x hx => (hmem x hx).1
  rw [nsmul_eq_mul] at hub hlb
  constructor
  · rw [le_div_iff₀ hnR]; linarith
  · rw [div_le_iff₀ hnR]; linarith

theorem blo_cn_pos (m : BLOMode) : 0 < blo_cn m := by
  cases m <;> norm_num [blo_cn]

theorem blo_sigma_pos (m : BLOMode) : 0 < blo_sigma m := by
  cases m <;> norm_num [blo_sigma]

theorem emission_mode_term_pos (D : ℝ) (hD : 0 < D) (f : ℝ) (hf : 0 < f) (m : BLOMode) :
    0 < f * blo_cn m / (Real.sqrt (2 * Real.pi) * blo_sigma m) / D *
      Real.exp (-((Real.log D - blo_mu m) ^ 2) / (2 * blo_sigma m ^ 2)) *
      ((4.0 / 3.0) * Real.pi * (D / 2.0) ^ 3) * 1e-6 := by
  have h1 : 0 < Real.sqrt (2 * Real.pi) := Real.sqrt_pos.mpr (by positivity)
  have h2 := blo_cn_pos m
  have h3 := blo_sigma_pos m
  have h4 := Real.pi_pos
  positivity

theorem emission_spectrum_henriques_nonneg (D : ℝ) (hD : 0 < D) (ac : String) :
    0 ≤ emission_spectrum_henriques D ac := by
  unfold emission_spectrum_henriques
  apply List.sum_nonneg
  intro x hx
  obtain ⟨m, hm, rfl⟩ := List.mem_map.mp hx
  split_ifs with hf
  · exact (emission_mode_term_pos D hD _ hf m).le
  · exact le_refl 0

theorem blo_famp_B_pos (ac : String) : 0 < blo_famp ac BLOMode.B := by
  unfold blo_famp
  split_ifs <;> norm_num

theorem emission_spectrum_henriques_pos (D : ℝ) (hD : 0 < D) (ac : String) :
    0 < emission_spectrum_henriques D ac := by
  unfold emission_spectrum_henriques
  simp only [List.map_cons, List.map_nil, List.sum_cons, List.sum_nil, add_zero]
  have hB : 0 < (if 0 < blo_famp ac BLOMode.B then
      blo_famp ac BLOMode.B * blo_cn BLOMode.B /
          (Real.sqrt (2 * Real.pi) * blo_sigma BLOMode.B) / D *
        Real.exp (-((Real.log D - blo_mu BLOMode.B) ^ 2) / (2 * blo_sigma BLOMode.B ^ 2)) *
        ((4.0 / 3.0) * Real.pi * (D / 2.0) ^ 3) * 1e-6
    else 0) := by
    rw [if_pos (blo_famp_B_pos ac)]
    exact emission_mode_term_pos D hD _ (blo_famp_B_pos ac) _
  have hL : 0 ≤ (if 0 < blo_famp ac BLOMode.L then
      blo_famp ac BLOMode.L * blo_cn BLOMode.L /
          (Real.sqrt (2 * Real.pi) * blo_sigma BLOMode.L) / D *
        Real.exp (-((Real.log D - blo_mu BLOMode.L) ^ 2) / (2 * blo_sigma BLOMode.L ^ 2)) *
        ((4.0 / 3.0) * Real.pi * (D / 2.0) ^ 3) * 1e-6
    else 0) := by
    split_ifs with hf
    · exact (emission_mode_term_pos D hD _ hf _).le
    · exact le_refl 0
  have hO : 0 ≤ (if 0 < blo_famp ac BLOMode.O then
      blo_famp ac BLOMode.O * blo_cn BLOMode.O /
          (Real.sqrt (2 * Real.pi) * blo_sigma BLOMode.O) / D *
        Real.exp (-((Real.log D - blo_mu BLOMode.O) ^ 2) / (2 * blo_sigma BLOMode.O ^ 2)) *
        ((4.0 / 3.0) * Real.pi * (D / 2.0) ^ 3) * 1e-6
    else 0) := by
    split_ifs with hf
    · exact (emission_mode_term_pos D hD _ hf _).le
    · exact le_refl 0
  linarith

theorem deposition_fraction_pos (D : ℝ) (hD : 0 < D) : 0 < deposition_fraction D 0.3 := by
  unfold deposition_fraction
  have hd : 0 < D * 0.3 := by linarith
  have hy : 0 < 0.00076 * (D * 0.3) ^ (2.8 : ℝ) := by
    have := Real.rpow_pos_of_pos hd (2.8 : ℝ)
    linarith
  have hinv : 0 < 1 / (1 + 0.00076 * (D * 0.3) ^ (2.8 : ℝ)) := by positivity
  have hinvle : 1 / (1 + 0.00076 * (D * 0.3) ^ (2.8 : ℝ)) ≤ 1 := by
    rw [div_le_one (by linarith)]
    linarith
  have hIF : 0 < 1 - 0.5 * (1 - 1 / (1 + 0.00076 * (D * 0.3) ^ (2.8 : ℝ))) := by
    nlinarith
  have hsecond : 0 < 0.0587 + 0.911 / (1 + Real.exp (4.77 + 1.485 * Real.log (D * 0.3))) +
      0.943 / (1 + Real.exp (0.508 - 2.58 * Real.log (D * 0.3))) := by
    have e1 : 0 < 1 + Real.exp (4.77 + 1.485 * Real.log (D * 0.3)) := by positivity
    have e2 : 0 < 1 + Real.exp (0.508 - 2.58 * Real.log (D * 0.3)) := by positivity
    positivity
  exact mul_pos hIF hsecond

theorem sedimentation_rate_nonneg (D : ℝ) : 0 ≤ sedimentation_rate D 0.3 := by
  unfold sedimentation_rate
  positivity

theorem viral_inactivation_rate_long_pos (D T RH : ℝ) :
    0 < viral_inactivation_rate_long D T RH := by
  unfold viral_inactivation_rate_long
  have hlog : 0 < Real.log 2 := Real.log_pos (by norm_num)
  set hl := Real.log 2 / (0.16030 + 0.04018 * ((T - 273.15 - 20.615) / 10.585) +
    0.02176 * ((RH * 100 - 45.235) / 28.665) - 0.14369 -
    0.02636 * ((T - 273.15 - 20.615) / 10.585)) with hhl
  have hl2 : 0 < (if hl ≤ 0 then (6.43 : ℝ) else min 6.43 hl) := by
    split_ifs with hcase
    · norm_num
    · exact lt_min (by norm_num) (lt_of_not_le hcase)
  exact div_pos hlog hl2

theorem jp_x0_j_eq (BR : ℝ) :
    (calculate_henriques_jet_parameters BR).x0_j = D_mouth / (2 * beta_r_j) := rfl

theorem jp_u0_eq (BR : ℝ) :
    (calculate_henriques_jet_parameters BR).u0 =
      2.0 * (BR / 3600.0) / (Real.pi * (D_mouth / 2.0) ^ 2) := rfl

theorem jp_Q_exh_eq (BR : ℝ) :
    (calculate_henriques_jet_parameters BR).Q_exh = 2.0 * (BR / 3600.0) := rfl

theorem jp_t0_j_eq (BR : ℝ) :
    (calculate_henriques_jet_parameters BR).t0_j =
      Real.sqrt Real.pi * D_mouth ^ 3 /
        (8 * beta_r_j ^ 2 * beta_x_j ^ 2 * (2.0 * (BR / 3600.0))) := rfl

theorem jp_x_transition_eq (BR : ℝ) :
    (calculate_henriques_jet_parameters BR).x_transition =
      beta_x_j * ((2.0 * (BR / 3600.0)) *
          (2.0 * (BR / 3600.0) / (Real.pi * (D_mouth / 2.0) ^ 2))) ^ (0.25 : ℝ) *
        (4.0 / 2.0 + Real.sqrt Real.pi * D_mouth ^ 3 /
          (8 * beta_r_j ^ 2 * beta_x_j ^ 2 * (2.0 * (BR / 3600.0)))) ^ (0.5 : ℝ) -
        D_mouth / (2 * beta_r_j) := rfl

theorem jp_u0_pos (BR : ℝ) (hBR : 0 < BR) :
    0 < (calculate_henriques_jet_parameters BR).u0 := by
  rw [jp_u0_eq]
  rw [show D_mouth = 0.02 from rfl]
  have := Real.pi_pos
  positivity

theorem jp_x_transition_pos (BR : ℝ) (hBR : 0 < BR) :
    0 < (calculate_henriques_jet_parameters BR).x_transition := by
  rw [jp_x_transition_eq]
  set Q : ℝ := 2.0 * (BR / 3600.0) with hQdef
  have hQ : 0 < Q := by positivity
  have hpi := Real.pi_pos
  set A : ℝ := Real.pi * (D_mouth / 2.0) ^ 2 with hAdef
  have hA : 0 < A := by
    rw [hAdef, show D_mouth = 0.02 from rfl]
    positivity
  set t0j : ℝ := Real.sqrt Real.pi * D_mouth ^ 3 / (8 * beta_r_j ^ 2 * beta_x_j ^ 2 * Q)
    with ht0jdef
  have ht0j : 0 < t0j := by
    rw [ht0jdef, show D_mouth = 0.02 from rfl, show beta_r_j = 0.18 from rfl,
      show beta_x_j = 2.4 from rfl]
    have hsq : 0 < Real.sqrt Real.pi := Real.sqrt_pos.mpr hpi
    positivity
  have hQA : (0 : ℝ) ≤ Q * (Q / A) := by positivity
  set a : ℝ := (Q * (Q / A)) ^ (0.25 : ℝ) with hadef
  have ha : 0 < a := Real.rpow_pos_of_pos (by positivity) _
  set b0 : ℝ := t0j ^ (0.5 : ℝ) with hb0def
  set b1 : ℝ := (4.0 / 2.0 + t0j) ^ (0.5 : ℝ) with hb1def
  have hb0 : 0 < b0 := Real.rpow_pos_of_pos ht0j _
  have hblt : b0 < b1 := by
    rw [hb0def, hb1def]
    exact Real.rpow_lt_rpow ht0j.le (by linarith) (by norm_num)
  -- the exact identity: beta_x_j * a * b0 = D_mouth / (2 * beta_r_j)
  have hkey : beta_x_j * a * b0 = D_mouth / (2 * beta_r_j) := by
    have hL : 0 ≤ beta_x_j * a * b0 := by
      rw [show beta_x_j = 2.4 from rfl]
      positivity
    have hR : (0 : ℝ) ≤ D_mouth / (2 * beta_r_j) := by
      rw [show D_mouth = 0.02 from rfl, show beta_r_j = 0.18 from rfl]
      norm_num
    have ha4 : a ^ (4 : ℕ) = Q * (Q / A) := by
      rw [hadef, ← Real.rpow_natCast ((Q * (Q / A)) ^ (0.25 : ℝ)) 4, ← Real.rpow_mul hQA]
      norm_num
    have hb04 : b0 ^ (4 : ℕ) = t0j ^ (2 : ℕ) := by
      rw [hb0def, ← Real.rpow_natCast (t0j ^ (0.5 : ℝ)) 4, ← Real.rpow_mul ht0j.le]
      rw [show (0.5 : ℝ) * (4 : ℕ) = ((2 : ℕ) : ℝ) from by norm_num]
      rw [Real.rpow_natCast]
    have hpow : (beta_x_j * a * b0) ^ (4 : ℕ) = (D_mouth / (2 * beta_r_j)) ^ (4 : ℕ) := by
      rw [mul_pow, mul_pow, ha4, hb04]
      rw [ht0jdef, hAdef]
      rw [show D_mouth = 0.02 from rfl, show beta_r_j = 0.18 from rfl,
        show beta_x_j = 2.4 from rfl]
      have hsqpi : Real.sqrt Real.pi ^ 2 = Real.pi := Real.sq_sqrt hpi.le
      field_simp
      nlinarith [hsqpi, hpi, hQ, sq_nonneg Q, sq_nonneg (Real.sqrt Real.pi)]
    have hinj := (pow_left_strictMonoOn₀ (by norm_num : (4 : ℕ) ≠ 0)).injOn (α := ℝ)
    exact hinj (Set.mem_setOf.mpr hL) (Set.mem_setOf.mpr hR) hpow
  have hfin : D_mouth / (2 * beta_r_j) < beta_x_j * a * b1 := by
    rw [← hkey]
    have hbx : (0 : ℝ) < beta_x_j * a := by
      rw [show beta_x_j = 2.4 from rfl]; positivity
    calc beta_x_j * a * b0 < beta_x_j * a * b1 := by
          exact mul_lt_mul_of_pos_left hblt hbx
      _ = beta_x_j * a * b1 := rfl
  linarith

theorem get_immune_emission_multiplier_nonneg (s : String) :
    0 ≤ get_immune_emission_multiplier s := by
  unfold get_immune_emission_multiplier
  split_ifs <;> norm_num

theorem lognormal_sample_pos (m s z : ℝ) : 0 < lognormal_sample m s z :=
  Real.exp_pos _

theorem uniform_sample_nonneg (lo hi u : ℝ) (hlo : 0 ≤ lo) (hord : lo ≤ hi) (hu : 0 ≤ u) :
    0 ≤ uniform_sample lo hi u := by
  unfold uniform_sample
  nlinarith

theorem Sx_jet_ge_one (x : ℝ) (hx : 0 ≤ x) : 1 ≤ Sx_jet x (D_mouth / (2 * beta_r_j)) := by
  unfold Sx_jet
  rw [show D_mouth = 0.02 from rfl, show beta_r_j = 0.18 from rfl]
  rw [le_div_iff₀ (by norm_num : (0:ℝ) < 0.02)]
  nlinarith

theorem Sx_puff_ge_one (x xt : ℝ) (hxt : 0 < xt) (hx : xt ≤ x) :
    1 ≤ Sx_puff x xt (D_mouth / (2 * beta_r_j)) := by
  unfold Sx_puff
  have h1 : 1 ≤ Sx_jet xt (D_mouth / (2 * beta_r_j)) := Sx_jet_ge_one xt hxt.le
  have hden : 0 < beta_r_j * (xt + D_mouth / (2 * beta_r_j)) := by
    rw [show D_mouth = 0.02 from rfl, show beta_r_j = 0.18 from rfl]
    nlinarith
  have hfrac : 0 ≤ beta_r_p * (x - xt) / (beta_r_j * (xt + D_mouth / (2 * beta_r_j))) := by
    apply div_nonneg _ hden.le
    rw [show beta_r_p = 0.20 from rfl]
    nlinarith
  have hc : (1:ℝ) ^ 3 ≤ (1 + beta_r_p * (x - xt) /
      (beta_r_j * (xt + D_mouth / (2 * beta_r_j)))) ^ 3 :=
    pow_le_pow_left₀ (by norm_num) (by linarith) 3
  nlinarith

theorem lambda_SR_bounds (x u0 RH : ℝ) (hx : 0 ≤ x) (hu : 0 < u0) :
    0 ≤ short_range_viability_decay x u0 RH ∧ short_range_viability_decay x u0 RH ≤ 1 := by
  unfold short_range_viability_decay
  split_ifs with h
  · refine ⟨le_trans (by norm_num) (le_max_left _ _), ?_⟩
    apply max_le (by norm_num)
    have h2 : 0 ≤ 0.016 * (x / u0) := by positivity
    linarith
  · norm_num

theorem binDose_nonneg (cfg : Config)
    (om filt oBR Sx lam vlin f_inf BR eta dt : ℝ) (idx : ℕ) (hidx : idx < 50)
    (hom : 0 ≤ om) (hfilt : 0 ≤ filt) (hoBR : 0 ≤ oBR) (hSx : 1 ≤ Sx)
    (hlam0 : 0 ≤ lam) (hlam1 : lam ≤ 1) (hvlin : 0 ≤ vlin) (hfinf : 0 ≤ f_inf)
    (hBR : 0 ≤ BR) (hdt : 0 ≤ dt) (heta : eta ≤ 1)
    (hACH : 0 ≤ (cfg.ACH_val : ℝ)) (hV : 0 ≤ (cfg.room_volume_val : ℝ)) :
    0 ≤ binDose cfg om filt oBR Sx lam vlin f_inf BR eta dt idx := by
  simp only [binDose]
  have hDv : 0 < Ds idx := Ds_pos idx
  set E := emission_spectrum_IRP_henriques (Ds idx) cfg.others_vocal_activity vlin f_inf
    with hEdef
  have hE : 0 ≤ E := by
    rw [hEdef]
    unfold emission_spectrum_IRP_henriques
    exact mul_nonneg (mul_nonneg
      (emission_spectrum_henriques_nonneg (Ds idx) hDv _) hvlin) hfinf
  set C0f := E * om * get_immune_emission_multiplier cfg.immunocompromised_status * filt
    with hC0fdef
  have hC0f : 0 ≤ C0f := by
    rw [hC0fdef]
    exact mul_nonneg (mul_nonneg (mul_nonneg hE hom)
      (get_immune_emission_multiplier_nonneg _)) hfilt
  set CLRv := (if Ds idx ≤ Dmax_LR then
      C0f * oBR / (((cfg.ACH_val : ℝ) + sedimentation_rate (Ds idx) 0.3 +
        viral_inactivation_rate_long (Ds idx) cfg.inside_temp cfg.RH) *
        (cfg.room_volume_val : ℝ))
    else 0.0) with hCLRvdef
  have hCLR : 0 ≤ CLRv := by
    rw [hCLRvdef]
    split_ifs with hcut
    · apply div_nonneg (mul_nonneg hC0f hoBR)
      apply mul_nonneg _ hV
      have hsed := sedimentation_rate_nonneg (Ds idx)
      have hinact := (viral_inactivation_rate_long_pos (Ds idx) cfg.inside_temp cfg.RH).le
      linarith
    · norm_num
  have hSxpos : (0:ℝ) < Sx := by linarith
  have ht0 : 0 ≤ 1 / Sx * lam := mul_nonneg (by positivity) hlam0
  have ht1 : 1 / Sx * lam ≤ 1 := by
    have h1 : 1 / Sx ≤ 1 := by rw [div_le_one hSxpos]; exact hSx
    nlinarith [one_div_pos.mpr hSxpos]
  have hCSR : 0 ≤ (if Ds idx ≤ Dmax_SR then CLRv + 1 / Sx * lam * (C0f - CLRv) else CLRv) := by
    split_ifs with hsr
    · nlinarith [mul_nonneg ht0 hC0f, mul_nonneg (sub_nonneg.mpr ht1) hCLR]
    · exact hCLR
  have hdep := (deposition_fraction_pos (Ds idx) hDv).le
  have hw := (dDs_pos idx hidx).le
  exact mul_nonneg (mul_nonneg (mul_nonneg (mul_nonneg (mul_nonneg hCSR hBR) hdt) hdep)
    (by linarith)) hw

theorem personDose_nonneg (cfg : Config) (om BR eta dt : ℝ) (p : PersonDraw)
    (hom : 0 ≤ om) (hBR : 0 ≤ BR) (hdt : 0 ≤ dt) (heta : eta ≤ 1)
    (hfe : 0 ≤ cfg.f_e_val) (hACH : 0 ≤ cfg.ACH_val) (hV : 0 ≤ cfg.room_volume_val)
    (hx : 0 ≤ cfg.x_val) (hp : p.InSupport) :
    0 ≤ personDose cfg om BR eta dt p := by
  simp only [personDose]
  by_cases hinf : p.u_infected < (cfg.covid_prevalence_val : ℝ)
  · rw [if_pos hinf]
    apply Finset.sum_nonneg
    intro idx hidx
    rw [Finset.mem_range] at hidx
    have hoBR : 0 < lognormal_sample
        (Real.log (get_henriques_breathing_rate cfg.others_physical_activity))
        (breathing_rate_sigma cfg.others_physical_activity) p.z_BR :=
      lognormal_sample_pos _ _ _
    have hxR : (0:ℝ) ≤ (cfg.x_val : ℝ) := by exact_mod_cast hx
    apply binDose_nonneg cfg _ _ _ _ _ _ _ _ _ _ idx hidx hom
    · split_ifs
      · exact_mod_cast hfe
      · norm_num
    · exact hoBR.le
    · split_ifs with hbr
      · rw [jp_x0_j_eq]
        exact Sx_jet_ge_one _ hxR
      · rw [jp_x0_j_eq]
        exact Sx_puff_ge_one _ _ (jp_x_transition_pos _ hoBR) (not_lt.mp hbr)
    · exact (lambda_SR_bounds _ _ cfg.RH hxR (jp_u0_pos _ hoBR)).1
    · exact (lambda_SR_bounds _ _ cfg.RH hxR (jp_u0_pos _ hoBR)).2
    · exact (Real.rpow_pos_of_pos (by norm_num) _).le
    · exact uniform_sample_nonneg 0.01 0.60 p.u_f_inf (by norm_num) (by norm_num) hp.2.2.2.1
    · exact hBR
    · exact hdt
    · exact heta
    · exact_mod_cast hACH
    · exact_mod_cast hV
  · rw [if_neg hinf]
    norm_num

theorem trialRisk_eq (cfg : Config) (d : TrialDraw) :
    trialRisk cfg d =
      1.0 - Real.exp (-((∑ j ∈ Finset.range cfg.N_val.toNat,
        personDose cfg (sample_omicron_transmissibility_bayesian d.z_omicron)
          (lognormal_sample (Real.log (get_henriques_breathing_rate cfg.user_physical_activity))
            (breathing_rate_sigma cfg.user_physical_activity) d.z_userBR)
          (1.0 - (cfg.f_i_val : ℝ)) ((cfg.delta_t_val : ℝ) / 3600.0) (d.person j)) /
        (oneoverln2 * uniform_sample 10 100 d.u_ID50 *
          (if (cfg.immune_val : ℝ) ≤ 0 then (50.0 : ℝ)
           else
             if (50.0 : ℝ) < lognormal_sample (Real.log (1.0 / (cfg.immune_val : ℝ))) 0.2 d.z_PF
             then (50.0 : ℝ)
             else lognormal_sample (Real.log (1.0 / (cfg.immune_val : ℝ))) 0.2 d.z_PF)))) := rfl

theorem trialRisk_le_one (cfg : Config) (d : TrialDraw) : trialRisk cfg d ≤ 1 := by
  rw [trialRisk_eq]
  have h := Real.exp_nonneg (-((∑ j ∈ Finset.range cfg.N_val.toNat,
    personDose cfg (sample_omicron_transmissibility_bayesian d.z_omicron)
      (lognormal_sample (Real.log (get_henriques_breathing_rate cfg.user_physical_activity))
        (breathing_rate_sigma cfg.user_physical_activity) d.z_userBR)
      (1.0 - (cfg.f_i_val : ℝ)) ((cfg.delta_t_val : ℝ) / 3600.0) (d.person j)) /
    (oneoverln2 * uniform_sample 10 100 d.u_ID50 *
      (if (cfg.immune_val : ℝ) ≤ 0 then (50.0 : ℝ)
       else
         if (50.0 : ℝ) < lognormal_sample (Real.log (1.0 / (cfg.immune_val : ℝ))) 0.2 d.z_PF
         then (50.0 : ℝ)
         else lognormal_sample (Real.log (1.0 / (cfg.immune_val : ℝ))) 0.2 d.z_PF))))
  linarith

theorem omicron_sample_nonneg (z : ℝ) :
    0 ≤ sample_omicron_transmissibility_bayesian z := by
  unfold sample_omicron_transmissibility_bayesian npClip
  apply le_min _ (by norm_num)
  exact le_trans (by norm_num) (le_max_right _ _)

theorem trialRisk_nonneg (cfg : Config) (d : TrialDraw)
    (hdel : 0 ≤ cfg.delta_t_val) (hfi : 0 ≤ cfg.f_i_val) (hfe : 0 ≤ cfg.f_e_val)
    (hACH : 0 ≤ cfg.ACH_val) (hV : 0 ≤ cfg.room_volume_val) (hx : 0 ≤ cfg.x_val)
    (hd : d.InSupport) :
    0 ≤ trialRisk cfg d := by
  rw [trialRisk_eq]
  set tot := ∑ j ∈ Finset.range cfg.N_val.toNat,
    personDose cfg (sample_omicron_transmissibility_bayesian d.z_omicron)
      (lognormal_sample (Real.log (get_henriques_breathing_rate cfg.user_physical_activity))
        (breathing_rate_sigma cfg.user_physical_activity) d.z_userBR)
      (1.0 - (cfg.f_i_val : ℝ)) ((cfg.delta_t_val : ℝ) / 3600.0) (d.person j) with htotdef
  set PF := (if (cfg.immune_val : ℝ) ≤ 0 then (50.0 : ℝ)
    else
      if (50.0 : ℝ) < lognormal_sample (Real.log (1.0 / (cfg.immune_val : ℝ))) 0.2 d.z_PF
      then (50.0 : ℝ)
      else lognormal_sample (Real.log (1.0 / (cfg.immune_val : ℝ))) 0.2 d.z_PF) with hPFdef
  have hdelR : (0:ℝ) ≤ (cfg.delta_t_val : ℝ) := by exact_mod_cast hdel
  have hfiR : (0:ℝ) ≤ (cfg.f_i_val : ℝ) := by exact_mod_cast hfi
  have htot : 0 ≤ tot := by
    rw [htotdef]
    apply Finset.sum_nonneg
    intro j hj
    exact personDose_nonneg cfg _ _ _ _ _ (omicron_sample_nonneg _)
      (lognormal_sample_pos _ _ _).le (div_nonneg hdelR (by norm_num)) (by linarith)
      hfe hACH hV hx (hd.2.2 j)
  have hID : (0:ℝ) < uniform_sample 10 100 d.u_ID50 := by
    unfold uniform_sample
    nlinarith [hd.1]
  have holn2 : 0 < oneoverln2 := by
    unfold oneoverln2
    exact div_pos (by norm_num) (Real.log_pos (by norm_num))
  have hPF : 0 < PF := by
    rw [hPFdef]
    split_ifs
    · norm_num
    · norm_num
    · exact lognormal_sample_pos _ _ _
  have hden : 0 < oneoverln2 * uniform_sample 10 100 d.u_ID50 * PF :=
    mul_pos (mul_pos holn2 hID) hPF
  have hfrac : 0 ≤ tot / (oneoverln2 * uniform_sample 10 100 d.u_ID50 * PF) :=
    div_nonneg htot hden.le
  have hexp : Real.exp (-(tot / (oneoverln2 * uniform_sample 10 100 d.u_ID50 * PF))) ≤ 1 := by
    rw [Real.exp_le_one_iff]
    linarith
  linarith

theorem adaptive_n_sims_pos (e : ℚ) : 0 < adaptive_n_sims e := by
  unfold adaptive_n_sims
  split_ifs <;> norm_num

theorem engine_ok_of_validated (a : EngineArgs) (draws : ℕ → TrialDraw) (cfg : Config)
    (hv : validatedConfig a = some cfg) :
    calculate_unified_transmission_exposure a draws = .ok (coreResult cfg draws) := by
  unfold validatedConfig at hv
  unfold calculate_unified_transmission_exposure
  cases hval : validateInputs a with
  | error m =>
    rw [hval] at hv
    exact absurd hv (by simp)
  | ok raw =>
    rw [hval] at hv
    have hv2 : (if raw.allFinite then some (raw.toConfig a) else none) = some cfg := hv
    show (if raw.allFinite then ExposureOutcome.ok (coreResult (raw.toConfig a) draws)
      else ExposureOutcome.nonreal) = ExposureOutcome.ok (coreResult cfg draws)
    by_cases hf : raw.allFinite
    · rw [if_pos hf] at hv2 ⊢
      simp only [Option.some.injEq] at hv2
      rw [hv2]
    · rw [if_neg hf] at hv2
      exact absurd hv2 (by simp)

theorem coreResult_risk (cfg : Config) (draws : ℕ → TrialDraw) :
    (coreResult cfg draws).risk = npMean (engineRisks cfg draws) := rfl

theorem coreResult_mc_mean_pf (cfg : Config) (draws : ℕ → TrialDraw) :
    (coreResult cfg draws).mc_mean_pf = npMean (engineRisks cfg draws) := rfl

theorem coreResult_mc_pf_median (cfg : Config) (draws : ℕ → TrialDraw) :
    (coreResult cfg draws).mc_pf_median = npPercentile (engineRisks cfg draws) 50 := rfl

theorem coreResult_mc_pf_ci_5 (cfg : Config) (draws : ℕ → TrialDraw) :
    (coreResult cfg draws).mc_pf_ci_5 = npPercentile (engineRisks cfg draws) 5 := rfl

theorem coreResult_mc_pf_ci_95 (cfg : Config) (draws : ℕ → TrialDraw) :
    (coreResult cfg draws).mc_pf_ci_95 = npPercentile (engineRisks cfg draws) 95 := rfl

theorem coreResult_mc_pf_ci_25 (cfg : Config) (draws : ℕ → TrialDraw) :
    (coreResult cfg draws).mc_pf_ci_25 = npPercentile (engineRisks cfg draws) 25 := rfl

theorem coreResult_mc_pf_ci_75 (cfg : Config) (draws : ℕ → TrialDraw) :
    (coreResult cfg draws).mc_pf_ci_75 = npPercentile (engineRisks cfg draws) 75 := rfl

theorem coreResult_mc_pf_ci_0_5 (cfg : Config) (draws : ℕ → TrialDraw) :
    (coreResult cfg draws).mc_pf_ci_0_5 = npPercentile (engineRisks cfg draws) 0.5 := rfl

theorem coreResult_mc_pf_ci_99_5 (cfg : Config) (draws : ℕ → TrialDraw) :
    (coreResult cfg draws).mc_pf_ci_99_5 = npPercentile (engineRisks cfg draws) 99.5 := rfl

theorem coreResult_rdd (cfg : Config) (draws : ℕ → TrialDraw) :
    (coreResult cfg draws).risk_distribution_data =
      (generate_risk_distribution_data (engineRisks cfg draws)).toOption := rfl

theorem engineRisks_ne_nil (cfg : Config) (draws : ℕ → TrialDraw) :
    engineRisks cfg draws ≠ [] := by
  unfold engineRisks
  rw [Ne, List.map_eq_nil_iff, List.range_eq_nil]
  exact (adaptive_n_sims_pos _).ne'

theorem engineRisks_mem_01 (cfg : Config) (draws : ℕ → TrialDraw)
    (hdel : 0 ≤ cfg.delta_t_val) (hfi : 0 ≤ cfg.f_i_val) (hfe : 0 ≤ cfg.f_e_val)
    (hACH : 0 ≤ cfg.ACH_val) (hV : 0 ≤ cfg.room_volume_val) (hx : 0 ≤ cfg.x_val)
    (hdraws : DrawsInSupport draws) :
    ∀ v ∈ engineRisks cfg draws, 0 ≤ v ∧ v ≤ 1 := by
  intro v hv
  unfold engineRisks at hv
  obtain ⟨i, hi, rfl⟩ := List.mem_map.mp hv
  exact ⟨trialRisk_nonneg cfg _ hdel hfi hfe hACH hV hx (hdraws i),
    trialRisk_le_one cfg _⟩

/-- claim C1 amended: for every validated configuration whose numeric
fields are physically sensible — nonnegative exposure duration, mask
factors, ventilation rate, room volume and distance (validation itself
does not range-check, see the counterexample) — every risk value reported
by `calculate_unified_transmission_exposure` (mean `risk`/`mc_mean_pf`,
median, and all percentile bounds) lies in `[0, 1]`, for every realization
of the random draws inside their distributions' support. -/
theorem claim1_amended (a : EngineArgs) (draws : ℕ → TrialDraw) (cfg : Config)
    (r : ExposureResult)
    (hv : validatedConfig a = some cfg)
    (hok : calculate_unified_transmission_exposure a draws = .ok r)
    (hdel : 0 ≤ cfg.delta_t_val) (hfi : 0 ≤ cfg.f_i_val) (hfe : 0 ≤ cfg.f_e_val)
    (hACH : 0 ≤ cfg.ACH_val) (hV : 0 ≤ cfg.room_volume_val) (hx : 0 ≤ cfg.x_val)
    (hdraws : DrawsInSupport draws) :
    r.reportedIn01 := by
  rw [engine_ok_of_validated a draws cfg hv] at hok
  have hr : r = coreResult cfg draws := by
    cases hok
    rfl
  subst hr
  have hne := engineRisks_ne_nil cfg draws
  have hmem := engineRisks_mem_01 cfg draws hdel hfi hfe hACH hV hx hdraws
  refine ⟨?_, ?_, ?_, ?_, ?_, ?_, ?_, ?_, ?_⟩
  · rw [coreResult_risk]
    exact npMean_bounds _ hne 0 1 hmem
  · rw [coreResult_mc_mean_pf]
    exact npMean_bounds _ hne 0 1 hmem
  · rw [coreResult_mc_pf_median]
    exact npPercentile_bounds _ hne 0 1 hmem 50 (by norm_num) (by norm_num)
  · rw [coreResult_mc_pf_ci_5]
    exact npPercentile_bounds _ hne 0 1 hmem 5 (by norm_num) (by norm_num)
  · rw [coreResult_mc_pf_ci_95]
    exact npPercentile_bounds _ hne 0 1 hmem 95 (by norm_num) (by norm_num)
  · rw [coreResult_mc_pf_ci_25]
    exact npPercentile_bounds _ hne 0 1 hmem 25 (by norm_num) (by norm_num)
  · rw [coreResult_mc_pf_ci_75]
    exact npPercentile_bounds _ hne 0 1 hmem 75 (by norm_num) (by norm_num)
  · rw [coreResult_mc_pf_ci_0_5]
    exact npPercentile_bounds _ hne 0 1 hmem 0.5 (by norm_num) (by norm_num)
  · rw [coreResult_mc_pf_ci_99_5]
    exact npPercentile_bounds _ hne 0 1 hmem 99.5 (by norm_num) (by norm_num)

/-- Witness for claim C1 amended: the all-defaults invocation with all-zero
draws reports only values in `[0, 1]`. -/
theorem claim1_amended_witness :
    (coreResult defaultConfig (fun _ => zeroTrialDraw)).reportedIn01 :=
  claim1_amended argsAllEmpty (fun _ => zeroTrialDraw) defaultConfig _
    rfl rfl
    (by norm_num [defaultConfig]) (by norm_num [defaultConfig]) (by norm_num [defaultConfig])
    (by norm_num [defaultConfig]) (by norm_num [defaultConfig]) (by norm_num [defaultConfig])
    (fun i => by
      simp only [TrialDraw.InSupport, PersonDraw.InSupport, zeroTrialDraw, zeroPersonDraw]
      norm_num)

theorem cex_validated : validatedConfig cexArgs = some cexConfig := rfl

theorem cex_delta_cast : ((cexConfig.delta_t_val : ℚ) : ℝ) = -3600 := by
  norm_num [cexConfig]

theorem cex_prev_cast : ((cexConfig.covid_prevalence_val : ℚ) : ℝ) = 1 := by
  norm_num [cexConfig]

theorem cex_x_cast : ((cexConfig.x_val : ℚ) : ℝ) = 10000 := by
  norm_num [cexConfig]

theorem cex_fi_cast : ((cexConfig.f_i_val : ℚ) : ℝ) = 1 := by
  norm_num [cexConfig]

theorem cex_ACH_cast : ((cexConfig.ACH_val : ℚ) : ℝ) = 1 := by
  norm_num [cexConfig]

theorem cex_V_cast : ((cexConfig.room_volume_val : ℚ) : ℝ) = 1 := by
  norm_num [cexConfig]

theorem cex_pm_cast : ((cexConfig.percentage_masked_val : ℚ) : ℝ) = 0 := by
  norm_num [cexConfig]

theorem cex_immune_cast : ((cexConfig.immune_val : ℚ) : ℝ) = 1 := by
  norm_num [cexConfig]

theorem omicron_sample_ge (z : ℝ) : 1.5 ≤ sample_omicron_transmissibility_bayesian z := by
  unfold sample_omicron_transmissibility_bayesian npClip
  exact le_min (le_max_right _ _) (by norm_num)

theorem standing_BR_sample : lognormal_sample
    (Real.log (get_henriques_breathing_rate "standing"))
    (breathing_rate_sigma "standing") 0 = 0.57 := by
  unfold lognormal_sample
  rw [show get_henriques_breathing_rate "standing" = 0.57 from rfl]
  rw [mul_zero, add_zero]
  exact Real.exp_log (by norm_num)

theorem binDose_linear_dt (cfg : Config)
    (om filt oBR Sx lam vlin f_inf BR eta dt : ℝ) (idx : ℕ) :
    binDose cfg om filt oBR Sx lam vlin f_inf BR eta dt idx =
      dt * binDose cfg om filt oBR Sx lam vlin f_inf BR eta 1 idx := by
  simp only [binDose]
  ring

theorem emission_spectrum_IRP_pos (D : ℝ) (hD : 0 < D) (voc : String)
    (vlin f_inf : ℝ) (hvlin : 0 < vlin) (hfinf : 0 < f_inf) :
    0 < emission_spectrum_IRP_henriques D voc vlin f_inf := by
  unfold emission_spectrum_IRP_henriques
  exact mul_pos (mul_pos (emission_spectrum_henriques_pos D hD _) hvlin) hfinf

theorem cex_lambda_zero :
    short_range_viability_decay 10000
      (calculate_henriques_jet_parameters 0.57).u0 0.40 = 0 := by
  have hu0pos := jp_u0_pos 0.57 (by norm_num)
  have hpi := Real.pi_pos
  have hub : (calculate_henriques_jet_parameters 0.57).u0 ≤ 160 := by
    rw [jp_u0_eq, show D_mouth = 0.02 from rfl]
    rw [div_le_iff₀ (by positivity)]
    nlinarith [Real.pi_gt_three]
  have hq : (62.5 : ℝ) ≤ 10000 / (calculate_henriques_jet_parameters 0.57).u0 := by
    rw [le_div_iff₀ hu0pos]
    nlinarith
  unfold short_range_viability_decay
  rw [if_pos (by norm_num : (0.40 : ℝ) ≤ 0.40)]
  rw [max_eq_left (by nlinarith : (1.0 : ℝ) - 0.016 * (10000 / (calculate_henriques_jet_parameters 0.57).u0) ≤ 0.0)]
  norm_num

theorem binDose_pos_at_zero_lam_zero (cfg : Config) (om filt oBR Sx vlin f_inf BR eta : ℝ)
    (hom : 0 < om) (hfilt : 0 < filt) (hoBR : 0 < oBR) (hvlin : 0 < vlin)
    (hfinf : 0 < f_inf) (hBR : 0 < BR) (heta : eta < 1)
    (hACH : 0 ≤ (cfg.ACH_val : ℝ)) (hV : 0 < (cfg.room_volume_val : ℝ)) :
    0 < binDose cfg om filt oBR Sx 0 vlin f_inf BR eta 1 0 := by
  simp only [binDose]
  rw [mul_zero, zero_mul]
  simp only [add_zero, ite_self]
  rw [if_pos (by rw [Ds_zero]; norm_num [Dmax_LR] : Ds 0 ≤ Dmax_LR)]
  have hD0 : (0:ℝ) < Ds 0 := Ds_pos 0
  have hE := emission_spectrum_IRP_pos (Ds 0) hD0 cfg.others_vocal_activity vlin f_inf hvlin hfinf
  have himm : 0 < get_immune_emission_multiplier cfg.immunocompromised_status := by
    unfold get_immune_emission_multiplier
    split_ifs <;> norm_num
  have hnum : 0 < emission_spectrum_IRP_henriques (Ds 0) cfg.others_vocal_activity vlin f_inf *
      om * get_immune_emission_multiplier cfg.immunocompromised_status * filt * oBR :=
    mul_pos (mul_pos (mul_pos (mul_pos hE hom) himm) hfilt) hoBR
  have hden : 0 < ((cfg.ACH_val : ℝ) + sedimentation_rate (Ds 0) 0.3 +
      viral_inactivation_rate_long (Ds 0) cfg.inside_temp cfg.RH) * (cfg.room_volume_val : ℝ) := by
    apply mul_pos _ hV
    have hsed := sedimentation_rate_nonneg (Ds 0)
    have hinact := viral_inactivation_rate_long_pos (Ds 0) cfg.inside_temp cfg.RH
    linarith
  have hCLR := div_pos hnum hden
  have hdep := deposition_fraction_pos (Ds 0) hD0
  have hw := dDs_pos 0 (by norm_num)
  have h1eta : 0 < 1 - eta := by linarith
  exact mul_pos (mul_pos (mul_pos (mul_pos (mul_pos hCLR hBR) one_pos) hdep) h1eta) hw

theorem cex_personDose_neg :
    personDose cexConfig (sample_omicron_transmissibility_bayesian zeroTrialDraw.z_omicron)
      (lognormal_sample
        (Real.log (get_henriques_breathing_rate cexConfig.user_physical_activity))
        (breathing_rate_sigma cexConfig.user_physical_activity) zeroTrialDraw.z_userBR)
      (1.0 - (cexConfig.f_i_val : ℝ)) ((cexConfig.delta_t_val : ℝ) / 3600.0)
      zeroPersonDraw < 0 := by
  have hdt0 : ((cexConfig.delta_t_val : ℚ) : ℝ) / 3600.0 < 0 := by
    rw [cex_delta_cast]
    norm_num
  simp only [personDose]
  rw [if_pos (show zeroPersonDraw.u_infected < ((cexConfig.covid_prevalence_val : ℚ) : ℝ) by
    rw [show zeroPersonDraw.u_infected = 0 from rfl, cex_prev_cast]
    norm_num)]
  simp only [show zeroPersonDraw.u_mask = 0 from rfl,
    show zeroPersonDraw.w_viral = 0 from rfl,
    show zeroPersonDraw.u_f_inf = 0 from rfl,
    show zeroPersonDraw.z_BR = 0 from rfl,
    show zeroTrialDraw.z_userBR = 0 from rfl,
    show cexConfig.others_physical_activity = "standing" from rfl,
    show cexConfig.user_physical_activity = "standing" from rfl,
    show cexConfig.RH = 0.40 from rfl,
    cex_pm_cast, cex_x_cast, cex_fi_cast, standing_BR_sample, cex_lambda_zero,
    if_neg (lt_irrefl (0 : ℝ))]
  refine lt_of_lt_of_eq (Finset.sum_lt_sum ?_ ?_) Finset.sum_const_zero
  · intro idx hidx
    rw [binDose_linear_dt]
    apply mul_nonpos_of_nonpos_of_nonneg hdt0.le
    apply binDose_nonneg cexConfig _ _ _ _ _ _ _ _ _ _ idx (Finset.mem_range.mp hidx)
    · exact le_trans (by norm_num) (omicron_sample_ge _)
    · norm_num
    · norm_num
    · split_ifs with hbr
      · rw [jp_x0_j_eq]
        exact Sx_jet_ge_one _ (by norm_num)
      · rw [jp_x0_j_eq]
        exact Sx_puff_ge_one _ _ (jp_x_transition_pos _ (by norm_num)) (not_lt.mp hbr)
    · norm_num
    · norm_num
    · exact (Real.rpow_pos_of_pos (by norm_num) _).le
    · exact uniform_sample_nonneg 0.01 0.60 0 (by norm_num) (by norm_num) (le_refl 0)
    · norm_num
    · norm_num
    · norm_num
    · rw [cex_ACH_cast]
      norm_num
    · rw [cex_V_cast]
      norm_num
  · refine ⟨0, Finset.mem_range.mpr (by norm_num), ?_⟩
    rw [binDose_linear_dt]
    apply mul_neg_of_neg_of_pos hdt0
    apply binDose_pos_at_zero_lam_zero
    · exact lt_of_lt_of_le (by norm_num) (omicron_sample_ge _)
    · norm_num
    · norm_num
    · exact Real.rpow_pos_of_pos (by norm_num) _
    · rw [show uniform_sample 0.01 0.60 0 = 0.01 from by unfold uniform_sample; ring]
      norm_num
    · norm_num
    · norm_num
    · rw [cex_ACH_cast]
      norm_num
    · rw [cex_V_cast]
      norm_num

theorem one_sub_exp_neg_of_neg (t th : ℝ) (ht : t < 0) (hth : 0 < th) :
    (1.0 : ℝ) - Real.exp (-(t / th)) < 0 := by
  have hfrac : t / th < 0 := div_neg_of_neg_of_pos ht hth
  have hexp := Real.one_lt_exp_iff.mpr (neg_pos.mpr hfrac)
  linarith

theorem cex_trialRisk_neg : trialRisk cexConfig zeroTrialDraw < 0 := by
  rw [trialRisk_eq, show cexConfig.N_val.toNat = 1 from rfl, Finset.sum_range_one,
    show zeroTrialDraw.person 0 = zeroPersonDraw from rfl]
  apply one_sub_exp_neg_of_neg
  · exact cex_personDose_neg
  · refine mul_pos (mul_pos ?_ ?_) ?_
    · unfold oneoverln2
      exact div_pos (by norm_num) (Real.log_pos (by norm_num))
    · unfold uniform_sample
      rw [show zeroTrialDraw.u_ID50 = 0 from rfl]
      norm_num
    · split_ifs
      · norm_num
      · norm_num
      · exact lognormal_sample_pos _ _ _

theorem cex_mean_neg : npMean (engineRisks cexConfig (fun _ => zeroTrialDraw)) < 0 := by
  rw [show engineRisks cexConfig (fun _ => zeroTrialDraw) =
      List.replicate (adaptive_n_sims ((cexConfig.N_val : ℚ) * cexConfig.covid_prevalence_val))
        (trialRisk cexConfig zeroTrialDraw) from by
    unfold engineRisks
    simp only [List.map_const', List.length_range]]
  unfold npMean
  rw [List.sum_replicate, List.length_replicate, nsmul_eq_mul]
  have hn : (0:ℝ) <
      (adaptive_n_sims ((cexConfig.N_val : ℚ) * cexConfig.covid_prevalence_val) : ℕ) := by
    exact_mod_cast adaptive_n_sims_pos _
  exact div_neg_of_neg_of_pos (mul_neg_of_pos_of_neg hn cex_trialRisk_neg) hn

/-- claim C1 counterexample: validation accepts the duration string
"-3600" (it does not range-check numeric inputs), and on the resulting
configuration — one definitely-infectious unmasked occupant at distance
10000 m for -1 hour — the engine succeeds but reports a strictly negative
risk and Monte Carlo mean, outside `[0, 1]`, even though every random draw
lies in its distribution's support. -/
theorem claim1_counterexample :
    validatedConfig cexArgs = some cexConfig ∧
    DrawsInSupport (fun _ => zeroTrialDraw) ∧
    (calculate_unified_transmission_exposure cexArgs fun _ => zeroTrialDraw).isOk = true ∧
    (calculate_unified_transmission_exposure cexArgs fun _ => zeroTrialDraw).reportedRisk < 0 ∧
    (calculate_unified_transmission_exposure cexArgs fun _ => zeroTrialDraw).reportedMeanPF
      < 0 := by
  have hengine := engine_ok_of_validated cexArgs (fun _ => zeroTrialDraw) cexConfig cex_validated
  refine ⟨cex_validated, ?_, ?_, ?_, ?_⟩
  · intro i
    simp only [TrialDraw.InSupport, PersonDraw.InSupport, zeroTrialDraw, zeroPersonDraw]
    norm_num
  · rw [hengine]
    rfl
  · rw [hengine]
    show (coreResult cexConfig fun _ => zeroTrialDraw).risk < 0
    rw [coreResult_risk]
    exact cex_mean_neg
  · rw [hengine]
    show (coreResult cexConfig fun _ => zeroTrialDraw).mc_mean_pf < 0
    rw [coreResult_mc_mean_pf]
    exact cex_mean_neg

theorem npSort_getD_zero_of_all_zero (l : List ℝ) (hall : ∀ v ∈ l, v = 0) (i : ℕ) :
    (npSort l).getD i 0 = 0 := by
  rcases lt_or_ge i l.length with h | h
  · exact hall _ (npSort_getD_mem l i h)
  · apply List.getD_eq_default
    rw [npSort_length]
    exact h

theorem npPercentile_zero_of_all_zero (l : List ℝ) (hall : ∀ v ∈ l, v = 0) (q : ℝ) :
    npPercentile l q = 0 := by
  rw [npPercentile_eq, npSort_getD_zero_of_all_zero l hall,
    npSort_getD_zero_of_all_zero l hall]
  ring

theorem pythonRound_zero : pythonRound 0 = 0 := by
  unfold pythonRound
  norm_num

theorem create_smart_bins_zero_error (l : List ℝ) :
    create_smart_bins l 0 0 = .error "np.arange: zero step (ZeroDivisionError)" := by
  simp only [create_smart_bins]
  rw [if_pos (by norm_num : ((0:ℝ) - 0) / 20 < 0.001),
    show ((0:ℝ) - 0) / 20 * 10000 = 0 from by norm_num, pythonRound_zero]
  rw [if_pos (by norm_num : ((0:ℤ):ℝ) / 10000 = 0)]

theorem calculate_optimal_axes_all_zero (l : List ℝ) (hall : ∀ v ∈ l, v = 0) :
    calculate_optimal_axes l = (0, 0, 0.001) := by
  simp only [calculate_optimal_axes, npPercentile_zero_of_all_zero l hall]
  norm_num

theorem genData_error_of_all_zero (l : List ℝ) (hne : l ≠ []) (hall : ∀ v ∈ l, v = 0) :
    generate_risk_distribution_data l =
      .error "np.arange: zero step (ZeroDivisionError)" := by
  have haxes := calculate_optimal_axes_all_zero l hall
  have h1 : (calculate_optimal_axes l).1 = 0 := by rw [haxes]
  have h2 : (calculate_optimal_axes l).2.1 = 0 := by rw [haxes]
  simp only [generate_risk_distribution_data]
  rw [if_neg (by simpa using hne)]
  rw [if_neg (show ¬ l.any (fun v => decide (v < 0) || decide (1 < v)) = true by
    intro hcontra
    obtain ⟨v, hv, hbad⟩ := List.any_eq_true.mp hcontra
    rw [hall v hv] at hbad
    simp only [Bool.or_eq_true, decide_eq_true_eq] at hbad
    rcases hbad with hbad | hbad <;> norm_num at hbad)]
  rw [h1, h2, create_smart_bins_zero_error]

theorem personDose_zero_of_not_infected (cfg : Config) (om BR eta dt : ℝ) (p : PersonDraw)
    (h : ¬ p.u_infected < (cfg.covid_prevalence_val : ℝ)) :
    personDose cfg om BR eta dt p = 0.0 := by
  simp only [personDose]
  rw [if_neg h]

theorem trialRisk_default_half_zero : trialRisk defaultConfig halfTrialDraw = 0 := by
  rw [trialRisk_eq, show defaultConfig.N_val.toNat = 1 from rfl, Finset.sum_range_one,
    show halfTrialDraw.person 0 = halfPersonDraw from rfl]
  rw [personDose_zero_of_not_infected _ _ _ _ _ _ (by
    rw [show halfPersonDraw.u_infected = 1/2 from rfl]
    norm_num [defaultConfig])]
  rw [show (0.0:ℝ) = 0 from by norm_num, zero_div, neg_zero, Real.exp_zero]
  norm_num

theorem engineRisks_default_half_all_zero :
    ∀ v ∈ engineRisks defaultConfig (fun _ => halfTrialDraw), v = 0 := by
  intro v hv
  unfold engineRisks at hv
  obtain ⟨i, hi, rfl⟩ := List.mem_map.mp hv
  exact trialRisk_default_half_zero

/-- claim C9: if `generate_risk_distribution_data` fails on the trial-risk
array of a validated run (the engine's local try/except around the
summarization stage), `calculate_unified_transmission_exposure` still
returns the success dictionary with every scalar statistic present — the
mean (`risk` / `mc_mean_pf`), the median and every percentile bound — and
with `risk_distribution_data` explicitly `None`; the failure does not
escape the engine. -/
theorem claim9_summarization_failure_isolated (a : EngineArgs) (draws : ℕ → TrialDraw)
    (cfg : Config) (msg : String)
    (hv : validatedConfig a = some cfg)
    (herr : generate_risk_distribution_data (engineRisks cfg draws) = .error msg) :
    ∃ r : ExposureResult,
      calculate_unified_transmission_exposure a draws = .ok r ∧
      r.risk_distribution_data = none ∧
      r.risk = npMean (engineRisks cfg draws) ∧
      r.mc_mean_pf = npMean (engineRisks cfg draws) ∧
      r.mc_pf_median = npPercentile (engineRisks cfg draws) 50 ∧
      r.mc_pf_ci_5 = npPercentile (engineRisks cfg draws) 5 ∧
      r.mc_pf_ci_95 = npPercentile (engineRisks cfg draws) 95 ∧
      r.mc_pf_ci_25 = npPercentile (engineRisks cfg draws) 25 ∧
      r.mc_pf_ci_75 = npPercentile (engineRisks cfg draws) 75 ∧
      r.mc_pf_ci_0_5 = npPercentile (engineRisks cfg draws) 0.5 ∧
      r.mc_pf_ci_99_5 = npPercentile (engineRisks cfg draws) 99.5 := by
  refine ⟨coreResult cfg draws, engine_ok_of_validated a draws cfg hv, ?_,
    coreResult_risk cfg draws, coreResult_mc_mean_pf cfg draws,
    coreResult_mc_pf_median cfg draws, coreResult_mc_pf_ci_5 cfg draws,
    coreResult_mc_pf_ci_95 cfg draws, coreResult_mc_pf_ci_25 cfg draws,
    coreResult_mc_pf_ci_75 cfg draws, coreResult_mc_pf_ci_0_5 cfg draws,
    coreResult_mc_pf_ci_99_5 cfg draws⟩
  rw [coreResult_rdd, herr]
  rfl

/-- Witness for claim C9: with all-default inputs and every occupant's
infection draw at `1/2` (not infectious at the default 1% prevalence),
every trial risk is `0`, the degenerate all-zero array makes the bin width
round to `0` (the `np.arange` `ZeroDivisionError` of the source), and the
engine still returns scalar statistics with a `None` distribution. -/
theorem claim9_witness :
    validatedConfig argsAllEmpty = some defaultConfig ∧
    generate_risk_distribution_data
        (engineRisks defaultConfig (fun _ => halfTrialDraw)) =
      .error "np.arange: zero step (ZeroDivisionError)" ∧
    ∃ r : ExposureResult,
      calculate_unified_transmission_exposure argsAllEmpty (fun _ => halfTrialDraw) = .ok r ∧
      r.risk_distribution_data = none ∧
      r.risk = npMean (engineRisks defaultConfig (fun _ => halfTrialDraw)) ∧
      r.mc_mean_pf = npMean (engineRisks defaultConfig (fun _ => halfTrialDraw)) ∧
      r.mc_pf_median = npPercentile (engineRisks defaultConfig (fun _ => halfTrialDraw)) 50 ∧
      r.mc_pf_ci_5 = npPercentile (engineRisks defaultConfig (fun _ => halfTrialDraw)) 5 ∧
      r.mc_pf_ci_95 = npPercentile (engineRisks defaultConfig (fun _ => halfTrialDraw)) 95 ∧
      r.mc_pf_ci_25 = npPercentile (engineRisks defaultConfig (fun _ => halfTrialDraw)) 25 ∧
      r.mc_pf_ci_75 = npPercentile (engineRisks defaultConfig (fun _ => halfTrialDraw)) 75 ∧
      r.mc_pf_ci_0_5 = npPercentile (engineRisks defaultConfig (fun _ => halfTrialDraw)) 0.5 ∧
      r.mc_pf_ci_99_5 =
        npPercentile (engineRisks defaultConfig (fun _ => halfTrialDraw)) 99.5 := by
  have herr : generate_risk_distribution_data
      (engineRisks defaultConfig (fun _ => halfTrialDraw)) =
      .error "np.arange: zero step (ZeroDivisionError)" :=
    genData_error_of_all_zero _ (engineRisks_ne_nil _ _) engineRisks_default_half_all_zero
  exact ⟨rfl, herr,
    claim9_summarization_failure_isolated argsAllEmpty (fun _ => halfTrialDraw)
      defaultConfig "np.arange: zero step (ZeroDivisionError)" rfl herr⟩

theorem countP_split (l : List ℝ) (p q r : ℝ → Bool)
    (hiff : ∀ v, r v = true ↔ (p v = true ∨ q v = true))
    (hdisj : ∀ v, ¬(p v = true ∧ q v = true)) :
    l.countP r = l.countP p + l.countP q := by
  induction l with
  | nil => simp
  | cons x xs ih =>
    rw [List.countP_cons, List.countP_cons, List.countP_cons, ih]
    by_cases hp : p x = true <;> by_cases hq : q x = true
    · exact absurd ⟨hp, hq⟩ (hdisj x)
    · have hr : r x = true := (hiff x).mpr (Or.inl hp)
      simp [hp, hq, hr] <;> omega
    · have hr : r x = true := (hiff x).mpr (Or.inr hq)
      simp [hp, hq, hr] <;> omega
    · have hr : ¬ r x = true := fun hrx => ((hiff x).mp hrx).elim hp hq
      simp [hp, hq, hr]

theorem chainLe_head_le_last (l : List ℝ) (hchain : chainLeBool l = true) (hne : l ≠ []) :
    l.getD 0 0 ≤ l.getD (l.length - 1) 0 := by
  induction l with
  | nil => exact absurd rfl hne
  | cons a t ih =>
    cases t with
    | nil => simp
    | cons b t' =>
      simp only [chainLeBool, Bool.and_eq_true, decide_eq_true_eq] at hchain
      exact le_trans hchain.1 (ih hchain.2 (by simp))

theorem npHistogramCounts_length (data : List ℝ) (edges : List ℝ)
    (h : 2 ≤ edges.length) :
    edges.length = (npHistogramCounts data edges).length + 1 := by
  induction edges with
  | nil => simp at h
  | cons a t ih =>
    cases t with
    | nil => simp at h
    | cons b t' =>
      cases t' with
      | nil => rfl
      | cons c rest =>
        simp only [npHistogramCounts, List.length_cons]
        rw [← ih (by simp [List.length_cons])]
        rfl

theorem npHistogramCounts_sum (data : List ℝ) (edges : List ℝ) (hlen : 2 ≤ edges.length)
    (hchain : chainLeBool edges = true) :
    (npHistogramCounts data edges).sum = data.countP (binsRange edges) := by
  induction edges with
  | nil => simp at hlen
  | cons a t ih =>
    cases t with
    | nil => simp at hlen
    | cons b t' =>
      cases t' with
      | nil => rfl
      | cons c rest =>
        have h1 : (decide (a ≤ b) && chainLeBool (b :: c :: rest)) = true := hchain
        rw [Bool.and_eq_true] at h1
        obtain ⟨hab', htail⟩ := h1
        have hab : a ≤ b := of_decide_eq_true hab'
        have hblast : b ≤ (b :: c :: rest).getD ((b :: c :: rest).length - 1) 0 :=
          chainLe_head_le_last _ htail (by simp)
        simp only [List.length_cons, Nat.add_sub_cancel, List.getD_cons_succ] at hblast
        have hiff : ∀ v, binsRange (a :: b :: c :: rest) v = true ↔
            ((fun v => decide (a ≤ v) && decide (v < b)) v = true ∨
              binsRange (b :: c :: rest) v = true) := by
          intro v
          simp only [binsRange, Bool.and_eq_true, decide_eq_true_eq, List.getD_cons_zero,
            List.length_cons, Nat.add_sub_cancel, List.getD_cons_succ]
          constructor
          · rintro ⟨hv1, hv2⟩
            by_cases hvb : v < b
            · exact Or.inl ⟨hv1, hvb⟩
            · exact Or.inr ⟨not_lt.mp hvb, hv2⟩
          · rintro (⟨hv1, hv2⟩ | ⟨hv1, hv2⟩)
            · exact ⟨hv1, le_trans hv2.le hblast⟩
            · exact ⟨le_trans hab hv1, hv2⟩
        have hdisj : ∀ v, ¬ ((fun v => decide (a ≤ v) && decide (v < b)) v = true ∧
            binsRange (b :: c :: rest) v = true) := by
          rintro v ⟨hpv, hqv⟩
          simp only [Bool.and_eq_true, decide_eq_true_eq] at hpv
          simp only [binsRange, Bool.and_eq_true, decide_eq_true_eq,
            List.getD_cons_zero] at hqv
          exact absurd hqv.1 (not_le.mpr hpv.2)
        simp only [npHistogramCounts, List.sum_cons]
        rw [ih (by simp) htail]
        exact (countP_split data (fun v => decide (a ≤ v) && decide (v < b))
          (binsRange (b :: c :: rest)) (binsRange (a :: b :: c :: rest)) hiff hdisj).symm

theorem np_histogram_ok (l edges : List ℝ) (hlen : ¬ edges.length < 2)
    (hchain : ¬ chainLeBool edges = false) :
    np_histogram l edges = .ok (npHistogramCounts l edges, edges) := by
  unfold np_histogram
  rw [if_neg hlen, if_neg hchain]

theorem genData_eq_of_pipeline (l : List ℝ) (xm xM tick : ℝ) (edges : List ℝ)
    (h0 : ¬ l.length = 0)
    (hany : ¬ l.any (fun v => decide (v < 0) || decide (1 < v)) = true)
    (haxes : calculate_optimal_axes l = (xm, xM, tick))
    (hbins : create_smart_bins l xm xM = .ok edges)
    (hlen : ¬ edges.length < 2)
    (hchain : ¬ chainLeBool edges = false) :
    generate_risk_distribution_data l =
      .ok { histogram := { counts := npHistogramCounts l edges
                           edges := edges
                           total_simulations := l.length
                           max_count := (npHistogramCounts l edges).foldr Nat.max 0 }
            statistics := calculate_risk_statistics l
            axis_config := { x_min := xm, x_max := xM, tick_interval := tick } } := by
  have h1 : (calculate_optimal_axes l).1 = xm := by rw [haxes]
  have h2 : (calculate_optimal_axes l).2.1 = xM := by rw [haxes]
  have h3 : (calculate_optimal_axes l).2.2 = tick := by rw [haxes]
  simp only [generate_risk_distribution_data]
  rw [if_neg h0, if_neg hany, h1, h2, h3, hbins]
  simp only []
  rw [np_histogram_ok l edges hlen hchain]

/-- claim C6 amended: for every trial-risk array accepted by
`generate_risk_distribution_data` (non-empty, all entries in `[0, 1]`; the
function errors otherwise), the histogram payload has exactly one more bin
edge than it has counts, and the sum of the counts equals the number of
array entries lying in the covered range `[first edge, last edge]` — not
necessarily the total number of trials, because `np.histogram` drops
values outside the given bin range (see the counterexample). -/
theorem claim6_amended (l : List ℝ) (d : RiskDistData)
    (hok : generate_risk_distribution_data l = .ok d) :
    d.histogram.edges.length = d.histogram.counts.length + 1 ∧
    d.histogram.counts.sum = l.countP (binsRange d.histogram.edges) ∧
    d.histogram.total_simulations = l.length := by
  simp only [generate_risk_distribution_data] at hok
  split at hok
  · exact absurd hok (by simp)
  · split at hok
    · exact absurd hok (by simp)
    · split at hok
      · exact absurd hok (by simp)
      · rename_i bins hbins
        split at hok
        · exact absurd hok (by simp)
        · rename_i ce hhist
          unfold np_histogram at hhist
          split at hhist
          · exact absurd hhist (by simp)
          · split at hhist
            · exact absurd hhist (by simp)
            · rename_i hlen hchain
              injection hhist with hhist
              injection hok with hok
              subst hok
              subst hhist
              have hlen2 : 2 ≤ bins.length := not_lt.mp hlen
              have hchain2 : chainLeBool bins = true := by
                cases hcb : chainLeBool bins
                · exact absurd hcb hchain
                · rfl
              refine ⟨?_, ?_, rfl⟩
              · show bins.length = (npHistogramCounts l bins).length + 1
                exact npHistogramCounts_length l bins hlen2
              · show (npHistogramCounts l bins).sum = l.countP (binsRange bins)
                exact npHistogramCounts_sum l bins hlen2 hchain2

theorem cex6_sort : npSort [(0:ℝ), 1] = [0, 1] := by
  unfold npSort
  simp [List.insertionSort, List.orderedInsert]

theorem cex6_p95 : npPercentile [(0:ℝ), 1] 95 = 0.95 := by
  rw [npPercentile_eq, cex6_sort]
  rw [show (([(0:ℝ), 1].length : ℝ) - 1) * 95 / 100 = 0.95 from by norm_num]
  rw [show ⌊(0.95:ℝ)⌋ = 0 from by norm_num,
    show ⌈(0.95:ℝ)⌉ = 1 from by rw [Int.ceil_eq_iff] ; norm_num]
  norm_num [List.getD]

theorem cex6_p5 : npPercentile [(0:ℝ), 1] 5 = 0.05 := by
  rw [npPercentile_eq, cex6_sort]
  rw [show (([(0:ℝ), 1].length : ℝ) - 1) * 5 / 100 = 0.05 from by norm_num]
  rw [show ⌊(0.05:ℝ)⌋ = 0 from by norm_num,
    show ⌈(0.05:ℝ)⌉ = 1 from by rw [Int.ceil_eq_iff] ; norm_num]
  norm_num [List.getD]

theorem cex6_axes : calculate_optimal_axes [(0:ℝ), 1] = (0.04, 1.14, 0.05) := by
  simp only [calculate_optimal_axes, cex6_p95, cex6_p5]
  norm_num

theorem cex6_pythonRound : pythonRound (5.5:ℝ) = 6 := by
  unfold pythonRound
  rw [show ⌊(5.5:ℝ)⌋ = 5 from by norm_num]
  norm_num

theorem cex6_arange : npArange 0.04 1.2 0.06 = cex6Edges := by
  unfold npArange
  rw [show ⌈((1.2:ℝ) - 0.04) / 0.06⌉ = 20 from by rw [Int.ceil_eq_iff] ; norm_num]
  rw [show ((20:ℤ)).toNat = 20 from rfl]
  rw [show List.range 20 =
    [0, 1, 2, 3, 4, 5, 6, 7, 8, 9, 10, 11, 12, 13, 14, 15, 16, 17, 18, 19] from rfl]
  simp only [List.map]
  unfold cex6Edges
  norm_num

theorem cex6_bins : create_smart_bins [(0:ℝ), 1] 0.04 1.14 = .ok cex6Edges := by
  simp only [create_smart_bins]
  rw [if_neg (by norm_num : ¬ ((1.14:ℝ) - 0.04) / 20 < 0.001),
    if_neg (by norm_num : ¬ ((1.14:ℝ) - 0.04) / 20 < 0.01)]
  rw [show ((1.14:ℝ) - 0.04) / 20 * 100 = 5.5 from by norm_num, cex6_pythonRound]
  rw [if_neg (by norm_num : ¬ ((6:ℤ):ℝ) / 100 = 0)]
  rw [show (1.14:ℝ) + ((6:ℤ):ℝ) / 100 = 1.2 from by norm_num,
    show ((6:ℤ):ℝ) / 100 = 0.06 from by norm_num, cex6_arange]

theorem cex6_chain : chainLeBool cex6Edges = true := by
  simp only [cex6Edges, chainLeBool, Bool.and_eq_true, decide_eq_true_eq]
  norm_num

/-- Witness for claim C6 amended: the two-trial array `[0, 1]` produces a
histogram with 20 edges, 19 counts, and a counts sum equal to the number
of in-range entries. -/
theorem claim6_amended_witness :
    ∃ d : RiskDistData,
      generate_risk_distribution_data [(0:ℝ), 1] = .ok d ∧
      (d.histogram.edges.length = d.histogram.counts.length + 1 ∧
       d.histogram.counts.sum = [(0:ℝ), 1].countP (binsRange d.histogram.edges) ∧
       d.histogram.total_simulations = [(0:ℝ), 1].length) := by
  have hok := genData_eq_of_pipeline [(0:ℝ), 1] 0.04 1.14 0.05 cex6Edges
    (by norm_num)
    (by
      simp only [List.any_cons, List.any_nil, Bool.or_eq_true, decide_eq_true_eq]
      norm_num)
    cex6_axes cex6_bins
    (by rw [show cex6Edges.length = 20 from rfl] ; norm_num)
    (by rw [cex6_chain] ; simp)
  exact ⟨_, hok, claim6_amended [(0:ℝ), 1] _ hok⟩

/-- claim C6 counterexample: on the admissible two-trial risk array
`[0, 1]` the bin range starts at the trimmed lower axis bound `0.04`, so
`np.histogram` drops the risk value `0`: the counts sum to `1`, not to the
total number of trials `2` — the first histogram invariant of the claim
fails. -/
theorem claim6_counterexample :
    ∃ d : RiskDistData,
      generate_risk_distribution_data [(0:ℝ), 1] = .ok d ∧
      d.histogram.total_simulations = 2 ∧
      d.histogram.counts.sum = 1 := by
  have hok := genData_eq_of_pipeline [(0:ℝ), 1] 0.04 1.14 0.05 cex6Edges
    (by norm_num)
    (by
      simp only [List.any_cons, List.any_nil, Bool.or_eq_true, decide_eq_true_eq]
      norm_num)
    cex6_axes cex6_bins
    (by rw [show cex6Edges.length = 20 from rfl] ; norm_num)
    (by rw [cex6_chain] ; simp)
  refine ⟨_, hok, rfl, ?_⟩
  show (npHistogramCounts [(0:ℝ), 1] cex6Edges).sum = 1
  rw [npHistogramCounts_sum [(0:ℝ), 1] cex6Edges
    (by rw [show cex6Edges.length = 20 from rfl] ; norm_num) cex6_chain]
  rw [show binsRange cex6Edges =
    fun v => decide ((0.04:ℝ) ≤ v) && decide (v ≤ 1.18) from rfl]
  norm_num [List.countP_cons, List.countP_nil]
